import Mathlib

/-
Shallow embedding of the TappieV2 firmware (G-us/TappieV2).

The repository holds two Arduino sketches:
  src/ESPCode/TappieV2/src/main.cpp    (the ESP32 variant, namespace TappieV2 below)
  src/ESPCode/TappieV2C3/src/main.cpp  (the ESP32-C3 variant, namespace TappieV2C3 below)

Modelling conventions, shared by both variants:
  * Every module-level mutable of the sketch is a field of `State`.
  * `millis()` is the `now` field; it is advanced only by the sketch's own
    `delay(...)` calls inside an iteration, and set from the loop input at the
    start of each iteration.  In C, `millis() - t` is 32-bit unsigned
    subtraction; we use truncated `Nat` subtraction, which agrees with it
    whenever `now ≥ t` — true in every reachable state, since every stored
    timestamp is an earlier reading of `millis()`.
  * A BLE notification is observable as a `Notif` (characteristic, payload,
    time); `characteristic->notify()` appends the characteristic's current
    value to the `notifs` trace.  `characteristic->setValue` writes one of the
    four `*Val` string fields.
  * The vendor libraries (OneButton gesture debouncer, encoder drivers, the
    BLE stack, the ADC) are external collaborators per the specification, so
    their outputs — classified gestures, encoder counts, the battery reading,
    the reed-switch level — enter as loop inputs, and connect/disconnect
    callbacks are separate state transformers.
  * `esp_deep_sleep_start()` never returns: operations that can reach it
    return a sum of a continuing `State` and a `SleepRecord` describing the
    halt.
-/

/-- The four GATT characteristics of the Tappie service: encoder position,
encoder-button gesture, per-button single click, per-button double click. -/
inductive Chara
  | encPos
  | encButton
  | mediaButton
  | mediaDoubleButton
deriving DecidableEq, Repr

/-- One BLE notification as a client observes it: which characteristic, the
payload string, and the `millis()` timestamp at which `notify()` ran. -/
structure Notif where
  chara : Chara
  value : String
  time : Nat
deriving DecidableEq, Repr

/-- Encoder-button gestures the OneButton debouncer can deliver (the sketches
attach click, double click, multi click and long-press-stop handlers). -/
inductive Gesture
  | single
  | double
  | multi
  | longPressRelease
deriving DecidableEq, Repr

/-- Payload string each encoder-button handler passes to `sendNotification`. -/
def gestureValue : Gesture → String
  | .single => "single click"
  | .double => "double click"
  | .multi => "multi click"
  | .longPressRelease => "long press release"

/-- Gestures attached to the five media buttons (only click and double click
handlers are attached in both variants). -/
inductive MediaGesture
  | click
  | doubleClick
deriving DecidableEq, Repr

/-- Names of `mediaButtons[0..4]` in declaration order. -/
def mediaName : Fin 5 → String
  | 0 => "Aux"
  | 1 => "Gaming"
  | 2 => "Media"
  | 3 => "Chat"
  | 4 => "Master"

namespace TappieV2

/-- Globals of src/ESPCode/TappieV2/src/main.cpp plus the observables they
drive.  `encoderCount` is the hardware quadrature counter (`encoder.getCount()`
reads it, `encoder.clearCount()` zeroes it), the four `*Val` fields are the
characteristic values, `notifs` is the trace of notifications sent so far and
`advertising` records whether the BLE advertiser is running. -/
structure State where
  deviceConnected : Bool
  oldDeviceConnected : Bool
  prevEncPosition : Int
  currentEncPosition : Int
  lastActivityTime : Nat
  prevReedState : Bool
  wasConnected : Bool
  lastReedCheckTime : Nat
  encoderCount : Int
  now : Nat
  encPosVal : String
  encButtonVal : String
  mediaButtonVal : String
  mediaDoubleVal : String
  notifs : List Notif
  advertising : Bool
deriving DecidableEq, Repr

/-- Effect of `characteristic->setValue(v)` for each of the four characteristics. -/
def State.setVal (s : State) (c : Chara) (v : String) : State :=
  match c with
  | .encPos => { s with encPosVal := v }
  | .encButton => { s with encButtonVal := v }
  | .mediaButton => { s with mediaButtonVal := v }
  | .mediaDoubleButton => { s with mediaDoubleVal := v }

/-- Current value of a characteristic. -/
def State.valOf (s : State) : Chara → String
  | .encPos => s.encPosVal
  | .encButton => s.encButtonVal
  | .mediaButton => s.mediaButtonVal
  | .mediaDoubleButton => s.mediaDoubleVal

/-- Effect of `characteristic->notify()`: the characteristic's current value is
pushed to the client, stamped with the current `millis()`. -/
def State.notify (s : State) (c : Chara) : State :=
  { s with notifs := s.notifs ++ [⟨c, s.valOf c, s.now⟩] }

/-- Effect of `delay(ms)`: only time advances. -/
def State.delay (s : State) (ms : Nat) : State :=
  { s with now := s.now + ms }

/-- Translation of `getBatteryLevel()`: the battery level is the constant 49 in
this variant ("Random battery level for simulation"), rendered as a leading
space followed by the decimal value. -/
def getBatteryLevel : String := " " ++ toString (49 : Int)

/-- Translation of `sendNotification(characteristic, value)` (main.cpp
lines 107-122): bail out when not connected; otherwise set the value and
notify; and when the target is `encButtonChara` or `mediaButtonChara` — and
only then — wait `BUTTON_NOTIFY_DELAY` (100 ms), set the value to "0" and
notify again. -/
def sendNotification (s : State) (c : Chara) (v : String) : State :=
  if s.deviceConnected = false then s
  else
    let s1 := (s.setVal c v).notify c
    if c = .encButton ∨ c = .mediaButton then
      let s2 := s1.delay 100
      (s2.setVal c "0").notify c
    else s1

/-- Translation of `resetEncoder()` (main.cpp lines 364-382):
`encoder.clearCount()`, zero both position trackers, notify
`"reset" + getBatteryLevel()` on the position characteristic when connected,
and re-arm the activity timer unconditionally. -/
def resetEncoder (s : State) : State :=
  let s := { s with encoderCount := 0, prevEncPosition := 0, currentEncPosition := 0 }
  let s :=
    if s.deviceConnected = true then
      (s.setVal .encPos ("reset" ++ getBatteryLevel)).notify .encPos
    else s
  { s with lastActivityTime := s.now }

/-- Translation of `handleConnectionChanges()` (main.cpp lines 387-411):
on a disconnect edge wait 500 ms and restart advertising; on a connect edge
send the current position plus battery level on the position characteristic. -/
def handleConnectionChanges (s : State) : State :=
  let s :=
    if s.deviceConnected = false ∧ s.oldDeviceConnected = true then
      let s := s.delay 500
      { s with advertising := true, oldDeviceConnected := s.deviceConnected }
    else s
  if s.deviceConnected = true ∧ s.oldDeviceConnected = false then
    let s := { s with oldDeviceConnected := s.deviceConnected }
    (s.setVal .encPos (toString s.currentEncPosition ++ getBatteryLevel)).notify .encPos
  else s

/-- Observables of the halt performed by `enterDeepSleep()`: the persisted
`wasConnected` flag, whether the client was disconnected and the BLE stack
deinitialized, whether the EXT1 rising-edge wake was armed, and the state at
the instant `esp_deep_sleep_start()` runs. -/
structure SleepRecord where
  wasConnected : Bool
  clientDisconnected : Bool
  bleDeinit : Bool
  wakeArmed : Bool
  finalState : State
deriving DecidableEq, Repr

/-- Translation of `enterDeepSleep()` (main.cpp lines 414-442): persist
`wasConnected = deviceConnected`; when a client is connected, disconnect it and
deinitialize the BLE stack; arm the EXT1 ANY_HIGH wake on the reed pin; halt.
The call never returns, so it produces a `SleepRecord`. -/
def enterDeepSleep (s : State) : SleepRecord :=
  let s := { s with wasConnected := s.deviceConnected }
  { wasConnected := s.wasConnected
    clientDisconnected := s.deviceConnected
    bleDeinit := s.deviceConnected
    wakeArmed := true
    finalState := s }

/-- Environment inputs consumed by one `loop()` iteration: the `millis()` value
at iteration start, the gesture (if any) each OneButton `tick()` resolves this
iteration, the hardware quadrature count `encoder.getCount()` reads, and the
level `digitalRead(reedSwitchPin)` returns. -/
structure Input where
  now : Nat
  encGesture : Option Gesture
  mediaEvents : Fin 5 → Option MediaGesture
  encoderCount : Int
  reedLevel : Bool

/-- Translation of `encButton.tick()`: when the debouncer resolves a gesture,
the attached lambda runs `if (deviceConnected) sendNotification(encButtonChara,
...)` with the gesture's payload. -/
def encTick (s : State) (g : Option Gesture) : State :=
  match g with
  | none => s
  | some g => if s.deviceConnected = true then sendNotification s .encButton (gestureValue g) else s

/-- Translation of `mediaButtons[i].button.tick()` for one button:
`buttonClickCallback` sends the button's name on `mediaButtonChara`,
`buttonDoubleClickCallback` sends it on `mediaDoubleButtonChara`, both only
when connected. -/
def mediaTickOne (s : State) (i : Fin 5) (g : Option MediaGesture) : State :=
  match g with
  | none => s
  | some .click =>
      if s.deviceConnected = true then sendNotification s .mediaButton (mediaName i) else s
  | some .doubleClick =>
      if s.deviceConnected = true then sendNotification s .mediaDoubleButton (mediaName i) else s

/-- Translation of the `for` loop ticking the five media buttons in index order. -/
def mediaTick (s : State) (ev : Fin 5 → Option MediaGesture) : State :=
  mediaTickOne (mediaTickOne (mediaTickOne (mediaTickOne
    (mediaTickOne s 0 (ev 0)) 1 (ev 1)) 2 (ev 2)) 3 (ev 3)) 4 (ev 4)

/-- Translation of the encoder-position block of `loop()` (lines 456-480):
`currentEncPosition = encoder.getCount() / 2` (C truncating division); when it
differs from `prevEncPosition`, refresh the activity timer, notify position
plus battery when connected, and store the new previous position. -/
def encoderPhase (s : State) (count : Int) : State :=
  let s := { s with encoderCount := count, currentEncPosition := Int.tdiv count 2 }
  if s.currentEncPosition ≠ s.prevEncPosition then
    let s := { s with lastActivityTime := s.now }
    let s :=
      if s.deviceConnected = true then
        (s.setVal .encPos (toString s.currentEncPosition ++ getBatteryLevel)).notify .encPos
      else s
    { s with prevEncPosition := s.currentEncPosition }
  else s

/-- Translation of the auto-reset check of `loop()` (lines 482-486):
`millis() - lastActivityTime > AUTO_RESET_TIMEOUT && currentEncPosition != 0`. -/
def autoResetPhase (s : State) : State :=
  if s.now - s.lastActivityTime > 5000 ∧ s.currentEncPosition ≠ 0 then resetEncoder s else s

/-- Result of one `loop()` iteration: either the next state, or a halt caused
by `enterDeepSleep()` (which never returns). -/
inductive LoopResult
  | next (s : State)
  | halted (r : SleepRecord)
deriving DecidableEq, Repr

/-- Translation of the reed-switch block of `loop()` (lines 491-507): every
`REED_CHECK_INTERVAL` (500 ms), sample the pin; on a falling edge (LOW now,
HIGH before) call `enterDeepSleep()`; otherwise store the sample. -/
def reedPhase (s : State) (level : Bool) : LoopResult :=
  if s.now - s.lastReedCheckTime > 500 then
    let s := { s with lastReedCheckTime := s.now }
    if level = false ∧ s.prevReedState = true then
      .halted (enterDeepSleep s)
    else
      .next { s with prevReedState := level }
  else .next s

/-- Translation of `loop()` (main.cpp lines 445-511), in source order:
button ticks, media button ticks, encoder-position block, auto-reset check,
`handleConnectionChanges()`, reed-switch check, `delay(5)`. -/
def loop (s : State) (inp : Input) : LoopResult :=
  let s := { s with now := inp.now }
  let s := encTick s inp.encGesture
  let s := mediaTick s inp.mediaEvents
  let s := encoderPhase s inp.encoderCount
  let s := autoResetPhase s
  let s := handleConnectionChanges s
  match reedPhase s inp.reedLevel with
  | .halted r => .halted r
  | .next s => .next (s.delay 5)

/-- Globals at boot.  `wasConnected` is `RTC_DATA_ATTR` and survives deep
sleep, so it is a parameter; everything else takes its C++ initializer. -/
def initialState (wasConn : Bool) : State :=
  { deviceConnected := false
    oldDeviceConnected := false
    prevEncPosition := 0
    currentEncPosition := 0
    lastActivityTime := 0
    prevReedState := true
    wasConnected := wasConn
    lastReedCheckTime := 0
    encoderCount := 0
    now := 0
    encPosVal := ""
    encButtonVal := ""
    mediaButtonVal := ""
    mediaDoubleVal := ""
    notifs := []
    advertising := false }

/-- Translation of `setupBLE()` (lines 256-317): create the characteristics,
set their initial values, start the service and start advertising. -/
def setupBLE (s : State) : State :=
  let s := s.setVal .encPos ("0" ++ getBatteryLevel)
  let s := s.setVal .encButton "0"
  let s := s.setVal .mediaButton "Master"
  let s := s.setVal .mediaDoubleButton "0"
  { s with advertising := true }

/-- Result of `setup()`: either a completed initialization or a halt. -/
inductive SetupResult
  | halted (r : SleepRecord)
  | ready (s : State)
deriving DecidableEq, Repr

/-- Translation of `setup()` (main.cpp lines 206-250): after configuring the
reed pin, read it; when it is LOW, `delay(100)` and `enterDeepSleep()` — BLE is
never initialized on that path.  Otherwise run `setupBLE()`, `setupEncoder()`
(`encoder.clearCount()`), `setupMediaButtons()` and arm the activity timer. -/
def setup (reedLevel : Bool) (wasConn : Bool) : SetupResult :=
  let s := initialState wasConn
  if reedLevel = false then
    .halted (enterDeepSleep (s.delay 100))
  else
    let s := setupBLE s
    let s := { s with encoderCount := 0 }
    .ready { s with lastActivityTime := s.now }

/-- Translation of `MyServerCallbacks::onConnect`: the BLE stack sets
`deviceConnected = true` (side effects are deferred to the main loop). -/
def onConnect (s : State) : State := { s with deviceConnected := true }

/-- Translation of `MyServerCallbacks::onDisconnect`. -/
def onDisconnect (s : State) : State := { s with deviceConnected := false }

/-- Notification trace of a loop result (the trace at halt time for a halt). -/
def LoopResult.notifsOf : LoopResult → List Notif
  | .next s => s.notifs
  | .halted r => r.finalState.notifs

/-- Continuing state of a loop result, when there is one. -/
def LoopResult.getNext? : LoopResult → Option State
  | .next s => some s
  | .halted _ => none

/-- Sleep record of a loop result, when it halted. -/
def LoopResult.getHalt? : LoopResult → Option SleepRecord
  | .next _ => none
  | .halted r => some r

end TappieV2

namespace TappieV2C3

/-- Globals of src/ESPCode/TappieV2C3/src/main.cpp plus the observables they
drive.  `encoderValue` is the `AiEsp32RotaryEncoder` counter (updated by its
ISR as the knob turns, read by `readEncoder()`, zeroed by `reset(0)`),
`lastTimeTurned` is the static local of `encoderRotaryLoop()`, and `battery` is
the percentage the external ADC conversion of `getBatteryLevel()` currently
yields (battery sampling is an external collaborator per the specification).
`currentEncPosition` exists in this variant too but is never assigned after its
zero initializer. -/
structure State where
  deviceConnected : Bool
  oldDeviceConnected : Bool
  prevEncPosition : Int
  currentEncPosition : Int
  lastActivityTime : Nat
  prevReedState : Bool
  wasConnected : Bool
  lastReedCheckTime : Nat
  lastBatteryCheckTime : Nat
  encoderValue : Int
  lastTimeTurned : Nat
  battery : Int
  now : Nat
  encPosVal : String
  encButtonVal : String
  mediaButtonVal : String
  mediaDoubleVal : String
  notifs : List Notif
  advertising : Bool
deriving DecidableEq, Repr

/-- Effect of `characteristic->setValue(v)` for each of the four characteristics. -/
def State.setVal (s : State) (c : Chara) (v : String) : State :=
  match c with
  | .encPos => { s with encPosVal := v }
  | .encButton => { s with encButtonVal := v }
  | .mediaButton => { s with mediaButtonVal := v }
  | .mediaDoubleButton => { s with mediaDoubleVal := v }

/-- Current value of a characteristic. -/
def State.valOf (s : State) : Chara → String
  | .encPos => s.encPosVal
  | .encButton => s.encButtonVal
  | .mediaButton => s.mediaButtonVal
  | .mediaDoubleButton => s.mediaDoubleVal

/-- Effect of `characteristic->notify()`. -/
def State.notify (s : State) (c : Chara) : State :=
  { s with notifs := s.notifs ++ [⟨c, s.valOf c, s.now⟩] }

/-- Effect of `delay(ms)`. -/
def State.delay (s : State) (ms : Nat) : State :=
  { s with now := s.now + ms }

/-- Translation of `getBatteryLevel()` of this variant: the
`analogReadMilliVolts`-to-percentage conversion is external (spec section 1);
its current result is the `battery` field, rendered as a leading space
followed by the decimal value. -/
def getBatteryLevel (s : State) : String := " " ++ toString s.battery

/-- Translation of `sendNotification(characteristic, value)` (main.cpp
lines 130-145), identical to the other variant: the pulse-then-clear applies
to `encButtonChara` and `mediaButtonChara` only. -/
def sendNotification (s : State) (c : Chara) (v : String) : State :=
  if s.deviceConnected = false then s
  else
    let s1 := (s.setVal c v).notify c
    if c = .encButton ∨ c = .mediaButton then
      let s2 := s1.delay 100
      (s2.setVal c "0").notify c
    else s1

/-- Translation of `resetEncoder()` (main.cpp lines 386-402): in this variant
`rotaryEncoder.reset(0)` and the reset notification both sit inside the
`if (deviceConnected)` block; only the activity timer is refreshed
unconditionally. -/
def resetEncoder (s : State) : State :=
  let s :=
    if s.deviceConnected = true then
      let s := { s with encoderValue := 0 }
      (s.setVal .encPos ("reset" ++ getBatteryLevel s)).notify .encPos
    else s
  { s with lastActivityTime := s.now }

/-- Translation of `encoderRotaryLoop()` (main.cpp lines 176-190): when the
encoder changed and more than 50 ms passed since the last accepted turn,
refresh `lastTimeTurned` and, when connected, set and notify the reading plus
battery level on the position characteristic. -/
def encoderRotaryLoop (s : State) (changed : Bool) : State :=
  if changed = true ∧ s.now - s.lastTimeTurned > 50 then
    let s := { s with lastTimeTurned := s.now }
    let str := toString s.encoderValue ++ getBatteryLevel s
    if s.deviceConnected = true then (s.setVal .encPos str).notify .encPos else s
  else s

/-- Translation of `handleConnectionChanges()` (main.cpp lines 413-437),
identical in shape to the other variant. -/
def handleConnectionChanges (s : State) : State :=
  let s :=
    if s.deviceConnected = false ∧ s.oldDeviceConnected = true then
      let s := s.delay 500
      { s with advertising := true, oldDeviceConnected := s.deviceConnected }
    else s
  if s.deviceConnected = true ∧ s.oldDeviceConnected = false then
    let s := { s with oldDeviceConnected := s.deviceConnected }
    (s.setVal .encPos (toString s.currentEncPosition ++ getBatteryLevel s)).notify .encPos
  else s

/-- Observables of the halt performed by this variant's `enterDeepSleep()`. -/
structure SleepRecord where
  wasConnected : Bool
  clientDisconnected : Bool
  bleDeinit : Bool
  wakeArmed : Bool
  finalState : State
deriving DecidableEq, Repr

/-- Translation of `enterDeepSleep()` (main.cpp lines 474-502).  In this
variant the `esp_sleep_enable_ext1_wakeup` call is commented out, so no wake
source is armed.  `loop()` never calls this function: the call site at
line 532 is commented out as well. -/
def enterDeepSleep (s : State) : SleepRecord :=
  let s := { s with wasConnected := s.deviceConnected }
  { wasConnected := s.wasConnected
    clientDisconnected := s.deviceConnected
    bleDeinit := s.deviceConnected
    wakeArmed := false
    finalState := s }

/-- Environment inputs consumed by one `loop()` iteration of this variant:
`millis()` at iteration start, resolved gestures, the rotation the encoder ISR
accumulated since the previous iteration (`encoderChanged()` is true exactly
when it is nonzero), and the reed level. -/
structure Input where
  now : Nat
  encGesture : Option Gesture
  mediaEvents : Fin 5 → Option MediaGesture
  encDelta : Int
  reedLevel : Bool

/-- Translation of `encButton.tick()` for this variant. -/
def encTick (s : State) (g : Option Gesture) : State :=
  match g with
  | none => s
  | some g => if s.deviceConnected = true then sendNotification s .encButton (gestureValue g) else s

/-- Translation of one media button `tick()` for this variant. -/
def mediaTickOne (s : State) (i : Fin 5) (g : Option MediaGesture) : State :=
  match g with
  | none => s
  | some .click =>
      if s.deviceConnected = true then sendNotification s .mediaButton (mediaName i) else s
  | some .doubleClick =>
      if s.deviceConnected = true then sendNotification s .mediaDoubleButton (mediaName i) else s

/-- Translation of the `for` loop ticking the five media buttons in index order. -/
def mediaTick (s : State) (ev : Fin 5 → Option MediaGesture) : State :=
  mediaTickOne (mediaTickOne (mediaTickOne (mediaTickOne
    (mediaTickOne s 0 (ev 0)) 1 (ev 1)) 2 (ev 2)) 3 (ev 3)) 4 (ev 4)

/-- Translation of the reed-switch block of `loop()` (lines 521-536): every
`REED_CHECK_INTERVAL` (500 ms) sample the pin and store the sample.  On a
falling edge this variant only prints a reminder — the `enterDeepSleep()` call
at line 532 is commented out — so no branch can halt. -/
def reedCheckPhase (s : State) (level : Bool) : State :=
  if s.now - s.lastReedCheckTime > 500 then
    { s with lastReedCheckTime := s.now, prevReedState := level }
  else s

/-- Translation of the battery-interval block of `loop()` (lines 538-542):
every `BATTERY_CHECK_INTERVAL` (300000 ms) refresh `lastBatteryCheckTime` and
call `resetEncoder()`. -/
def batteryCheckPhase (s : State) : State :=
  if s.now - s.lastBatteryCheckTime > 300000 then
    resetEncoder { s with lastBatteryCheckTime := s.now }
  else s

/-- Translation of `loop()` (main.cpp lines 505-545), in source order: button
ticks, media ticks, `encoderRotaryLoop()`, `handleConnectionChanges()`, the
reed-switch check, the battery-interval check, and `delay(2)`.  Nothing in
this loop can halt, so it returns a plain `State`. -/
def loop (s : State) (inp : Input) : State :=
  let s := { s with now := inp.now, encoderValue := s.encoderValue + inp.encDelta }
  let s := encTick s inp.encGesture
  let s := mediaTick s inp.mediaEvents
  let s := encoderRotaryLoop s (decide (inp.encDelta ≠ 0))
  let s := handleConnectionChanges s
  let s := reedCheckPhase s inp.reedLevel
  let s := batteryCheckPhase s
  s.delay 2

/-- Globals at boot for this variant. -/
def initialState (wasConn : Bool) (battery : Int) : State :=
  { deviceConnected := false
    oldDeviceConnected := false
    prevEncPosition := 0
    currentEncPosition := 0
    lastActivityTime := 0
    prevReedState := true
    wasConnected := wasConn
    lastReedCheckTime := 0
    lastBatteryCheckTime := 0
    encoderValue := 0
    lastTimeTurned := 0
    battery := battery
    now := 0
    encPosVal := ""
    encButtonVal := ""
    mediaButtonVal := ""
    mediaDoubleVal := ""
    notifs := []
    advertising := false }

/-- Translation of this variant's `setupBLE()` (lines 281-342). -/
def setupBLE (s : State) : State :=
  let s := s.setVal .encPos ("0" ++ getBatteryLevel s)
  let s := s.setVal .encButton "0"
  let s := s.setVal .mediaButton "Master"
  let s := s.setVal .mediaDoubleButton "0"
  { s with advertising := true }

/-- Translation of `setup()` (main.cpp lines 441-472): configure the reed and
battery pins, then `setupEncoder()`, `setupMediaButtons()`, `setupBLE()`.
Unlike the other variant, the reed level is never read during setup — there is
no go-back-to-sleep check and no halt path, and advertising always starts.
The `reedLevel` parameter is the pin's level at boot; the body never consults
it, mirroring the source. -/
def setup (reedLevel : Bool) (wasConn : Bool) (battery : Int) : State :=
  let s := initialState wasConn battery
  setupBLE s

/-- Translation of `MyServerCallbacks::onConnect` of this variant: set
`deviceConnected = true`, then call `resetEncoder()` directly in the callback. -/
def onConnect (s : State) : State :=
  resetEncoder { s with deviceConnected := true }

/-- Translation of `MyServerCallbacks::onDisconnect` of this variant. -/
def onDisconnect (s : State) : State := { s with deviceConnected := false }

end TappieV2C3

/-
Concrete sample states and inputs used by the closed witness and
counterexample theorems below.
-/

/-- Sample TappieV2 state: client connected and already acknowledged, encoder
at rest, one second after boot. -/
def v2Connected : TappieV2.State :=
  { deviceConnected := true, oldDeviceConnected := true, prevEncPosition := 0,
    currentEncPosition := 0, lastActivityTime := 1000, prevReedState := true,
    wasConnected := false, lastReedCheckTime := 1000, encoderCount := 0, now := 1000,
    encPosVal := "0 49", encButtonVal := "0", mediaButtonVal := "Master",
    mediaDoubleVal := "0", notifs := [], advertising := true }

/-- Sample TappieV2 state: a client just connected (callback ran, main loop has
not yet observed the edge). -/
def v2ConnectPending : TappieV2.State := { v2Connected with oldDeviceConnected := false }

/-- Input for one TappieV2 iteration in which the encoder button resolves a
single click and nothing else happens. -/
def v2GestureInput : TappieV2.Input :=
  { now := 1000, encGesture := some .single, mediaEvents := fun _ => none,
    encoderCount := 0, reedLevel := true }

/-- Input for one TappieV2 iteration with no user interaction at all. -/
def v2QuietInput : TappieV2.Input :=
  { now := 1000, encGesture := none, mediaEvents := fun _ => none,
    encoderCount := 0, reedLevel := true }

/-- Sample TappieV2 state: no client, encoder resting at position 3, last
activity at boot. -/
def v2IdleDisconnected : TappieV2.State :=
  { v2Connected with
    deviceConnected := false
    oldDeviceConnected := false
    currentEncPosition := 3
    prevEncPosition := 3
    encoderCount := 6
    lastActivityTime := 0
    now := 0 }

/-- Input reaching `v2IdleDisconnected` six seconds into its idle period with
the encoder untouched. -/
def v2IdleInput : TappieV2.Input :=
  { now := 6000, encGesture := none, mediaEvents := fun _ => none,
    encoderCount := 6, reedLevel := true }

/-- Sample TappieV2 state: disconnected, reed previously high, reed check due. -/
def v2AwakeDisconnected : TappieV2.State :=
  { v2Connected with
    deviceConnected := false
    oldDeviceConnected := false
    lastReedCheckTime := 0
    now := 0
    lastActivityTime := 6000 }

/-- Input with the reed switch now reading LOW (a falling edge). -/
def v2FallingInput : TappieV2.Input :=
  { now := 6000, encGesture := none, mediaEvents := fun _ => none,
    encoderCount := 0, reedLevel := false }

/-- Sample TappieV2C3 state: connected and acknowledged, encoder at 3, both
periodic checks recently serviced. -/
def c3Connected : TappieV2C3.State :=
  { deviceConnected := true, oldDeviceConnected := true, prevEncPosition := 0,
    currentEncPosition := 0, lastActivityTime := 0, prevReedState := true,
    wasConnected := false, lastReedCheckTime := 6000, lastBatteryCheckTime := 6000,
    encoderValue := 3, lastTimeTurned := 0, battery := 49, now := 0,
    encPosVal := "0 49", encButtonVal := "0", mediaButtonVal := "Master",
    mediaDoubleVal := "0", notifs := [], advertising := true }

/-- Sample TappieV2C3 state: a client just connected (connect callback ran,
main loop has not yet observed the edge). -/
def c3ConnectPending : TappieV2C3.State := { c3Connected with oldDeviceConnected := false }

/-- Input for one TappieV2C3 iteration six seconds after the last activity,
with no user interaction. -/
def c3IdleInput : TappieV2C3.Input :=
  { now := 6000, encGesture := none, mediaEvents := fun _ => none,
    encDelta := 0, reedLevel := true }

/-- Sample TappieV2C3 state with the reed check due. -/
def c3ReedDue : TappieV2C3.State := { c3Connected with lastReedCheckTime := 0 }

/-- Input with the reed switch now reading LOW (a falling edge). -/
def c3FallingInput : TappieV2C3.Input := { c3IdleInput with reedLevel := false }

/-- Sample TappieV2C3 state: disconnected, encoder value 5. -/
def c3Disconnected5 : TappieV2C3.State :=
  { c3Connected with
    deviceConnected := false
    encoderValue := 5
    now := 700 }

/-- Sample TappieV2C3 state with the battery check overdue. -/
def c3BatteryDue : TappieV2C3.State :=
  { c3Connected with
    lastBatteryCheckTime := 0
    now := 0
    lastReedCheckTime := 400000 }

/-- Input reaching `c3BatteryDue` just past the battery-check interval. -/
def c3BatteryInput : TappieV2C3.Input := { c3IdleInput with now := 300001 }

/-- State `v2Connected` reaches after one fully quiet loop iteration driven by
`v2QuietInput`: only `delay(5)` advanced the clock. -/
def v2AfterQuiet : TappieV2.State := { v2Connected with now := 1005 }

/-- Image of a TappieV2 loop result under overwriting the carried
`wasConnected` flag.  A halt is unchanged because `enterDeepSleep()` itself
overwrites the flag with `deviceConnected` before halting. -/
def TappieV2.LoopResult.overWasConn (b : Bool) : TappieV2.LoopResult → TappieV2.LoopResult
  | .next s => .next { s with wasConnected := b }
  | .halted r => .halted r

/-- Fields of the TappieV2 reed-switch supervisor that no earlier phase of
`loop` touches, plus monotonicity of time: the relation every pre-reed phase
preserves. -/
def TappieV2.ReedCtx (s u : TappieV2.State) : Prop :=
  u.deviceConnected = s.deviceConnected ∧ u.prevReedState = s.prevReedState ∧
    u.lastReedCheckTime = s.lastReedCheckTime ∧ s.now ≤ u.now

/-- Fields relevant to the TappieV2C3 reed and battery checks that no earlier
phase of its `loop` touches (including the never-persisted `wasConnected`),
plus monotonicity of time. -/
def TappieV2C3.BatCtx (s u : TappieV2C3.State) : Prop :=
  u.deviceConnected = s.deviceConnected ∧ u.battery = s.battery ∧
    u.lastBatteryCheckTime = s.lastBatteryCheckTime ∧
    u.lastReedCheckTime = s.lastReedCheckTime ∧ u.prevReedState = s.prevReedState ∧
    u.wasConnected = s.wasConnected ∧ s.now ≤ u.now

namespace TappieV2

/-
Helper lemmas about the TappieV2 phases.
-/

/-- Ticking the media buttons with no resolved gestures is a no-op. -/
theorem mediaTick_none (s : State) : mediaTick s (fun _ => none) = s := rfl

/-- Ticking the encoder button with no resolved gesture is a no-op. -/
theorem encTick_none (s : State) : encTick s none = s := rfl

/-- Unfolding of `loop` into its phase pipeline. -/
theorem loop_eq (s : State) (inp : Input) :
    loop s inp =
      match reedPhase (handleConnectionChanges (autoResetPhase (encoderPhase
          (mediaTick (encTick { s with now := inp.now } inp.encGesture) inp.mediaEvents)
          inp.encoderCount))) inp.reedLevel with
      | .halted r => .halted r
      | .next u => .next (u.delay 5) := rfl

/-- Explicit description of `resetEncoder`. -/
theorem resetEncoder_eq (s : State) :
    resetEncoder s =
      { s with
        encoderCount := 0
        prevEncPosition := 0
        currentEncPosition := 0
        lastActivityTime := s.now
        encPosVal := if s.deviceConnected = true then "reset" ++ getBatteryLevel else s.encPosVal
        notifs := s.notifs ++
          (if s.deviceConnected = true then [⟨.encPos, "reset" ++ getBatteryLevel, s.now⟩] else []) } := by
  by_cases h : s.deviceConnected = true <;>
    simp [resetEncoder, State.setVal, State.notify, State.valOf, h]

/-- When the freshly read position equals the previous one, the encoder block
only refreshes the two mirrored variables. -/
theorem encoderPhase_of_same (s : State) (count : Int)
    (h : Int.tdiv count 2 = s.prevEncPosition) :
    encoderPhase s count =
      { s with encoderCount := count, currentEncPosition := Int.tdiv count 2 } := by
  simp [encoderPhase, h]

/-- The auto-reset check fires exactly under its two conditions. -/
theorem autoResetPhase_of_idle (s : State)
    (h1 : s.now - s.lastActivityTime > 5000) (h2 : s.currentEncPosition ≠ 0) :
    autoResetPhase s = resetEncoder s := by
  simp [autoResetPhase, h1, h2]

/-- No auto-reset when the position is zero. -/
theorem autoResetPhase_of_zero (s : State) (h : s.currentEncPosition = 0) :
    autoResetPhase s = s := by
  simp [autoResetPhase, h]

/-- No auto-reset inside the five-second window. -/
theorem autoResetPhase_of_recent (s : State) (h : ¬ s.now - s.lastActivityTime > 5000) :
    autoResetPhase s = s := by
  simp [autoResetPhase, h]

/-- With no pending connection edge, `handleConnectionChanges` is a no-op. -/
theorem handleConnectionChanges_of_eq (s : State)
    (h : s.oldDeviceConnected = s.deviceConnected) : handleConnectionChanges s = s := by
  cases hb : s.deviceConnected <;> simp [handleConnectionChanges, h, hb]

/-- On a pending connect edge, `handleConnectionChanges` acknowledges it and
notifies the current position plus battery level. -/
theorem handleConnectionChanges_of_connect (s : State)
    (hc : s.deviceConnected = true) (ho : s.oldDeviceConnected = false) :
    handleConnectionChanges s =
      { s with
        oldDeviceConnected := true
        encPosVal := toString s.currentEncPosition ++ getBatteryLevel
        notifs := s.notifs ++
          [⟨.encPos, toString s.currentEncPosition ++ getBatteryLevel, s.now⟩] } := by
  simp [handleConnectionChanges, State.setVal, State.notify, State.valOf, hc, ho]

/-- With the reed reading HIGH the reed phase never sleeps. -/
theorem reedPhase_of_awake (s : State) :
    reedPhase s true =
      .next (if s.now - s.lastReedCheckTime > 500 then
        { s with lastReedCheckTime := s.now, prevReedState := true } else s) := by
  by_cases h : s.now - s.lastReedCheckTime > 500 <;> simp [reedPhase, h]

/-- A sampled falling edge makes the reed phase halt through `enterDeepSleep`. -/
theorem reedPhase_of_falling (s : State)
    (h : s.now - s.lastReedCheckTime > 500) (hp : s.prevReedState = true) :
    reedPhase s false = .halted (enterDeepSleep { s with lastReedCheckTime := s.now }) := by
  simp [reedPhase, h, hp]

theorem reedCtx_rfl (s : State) : ReedCtx s s := ⟨rfl, rfl, rfl, le_refl _⟩

theorem reedCtx_trans {s u w : State} (h1 : ReedCtx s u) (h2 : ReedCtx u w) : ReedCtx s w :=
  ⟨h2.1.trans h1.1, h2.2.1.trans h1.2.1, h2.2.2.1.trans h1.2.2.1,
    h1.2.2.2.trans h2.2.2.2⟩

theorem sendNotification_reedCtx (s : State) (c : Chara) (v : String) :
    ReedCtx s (sendNotification s c v) := by
  cases c <;> by_cases h : s.deviceConnected = false <;>
    simp [sendNotification, h, ReedCtx, State.setVal, State.notify, State.valOf, State.delay]

theorem encTick_reedCtx (s : State) (g : Option Gesture) : ReedCtx s (encTick s g) := by
  cases g with
  | none => exact reedCtx_rfl s
  | some g =>
      simp only [encTick]
      split_ifs with h
      · exact sendNotification_reedCtx s _ _
      · exact reedCtx_rfl s

theorem mediaTickOne_reedCtx (s : State) (i : Fin 5) (g : Option MediaGesture) :
    ReedCtx s (mediaTickOne s i g) := by
  cases g with
  | none => exact reedCtx_rfl s
  | some g =>
      cases g <;> simp only [mediaTickOne] <;> split_ifs <;>
        first
          | exact sendNotification_reedCtx s _ _
          | exact reedCtx_rfl s

theorem mediaTick_reedCtx (s : State) (ev : Fin 5 → Option MediaGesture) :
    ReedCtx s (mediaTick s ev) :=
  reedCtx_trans (reedCtx_trans (reedCtx_trans (reedCtx_trans
    (mediaTickOne_reedCtx s 0 (ev 0)) (mediaTickOne_reedCtx _ 1 (ev 1)))
    (mediaTickOne_reedCtx _ 2 (ev 2))) (mediaTickOne_reedCtx _ 3 (ev 3)))
    (mediaTickOne_reedCtx _ 4 (ev 4))

theorem resetEncoder_reedCtx (s : State) : ReedCtx s (resetEncoder s) := by
  rw [resetEncoder_eq]; exact ⟨rfl, rfl, rfl, le_refl _⟩

theorem encoderPhase_reedCtx (s : State) (count : Int) : ReedCtx s (encoderPhase s count) := by
  simp only [encoderPhase, State.setVal, State.notify, State.valOf]
  split_ifs <;> simp [ReedCtx]

theorem autoResetPhase_reedCtx (s : State) : ReedCtx s (autoResetPhase s) := by
  simp only [autoResetPhase]
  split_ifs with h
  · exact resetEncoder_reedCtx s
  · exact reedCtx_rfl s

theorem handleConnectionChanges_reedCtx (s : State) :
    ReedCtx s (handleConnectionChanges s) := by
  simp only [handleConnectionChanges, State.setVal, State.notify, State.valOf, State.delay]
  split_ifs <;> simp [ReedCtx]

/-- Composite of all phases that run before the reed check preserves the
reed-supervisor context. -/
theorem preReed_reedCtx (s : State) (g : Option Gesture) (ev : Fin 5 → Option MediaGesture)
    (count : Int) :
    ReedCtx s (handleConnectionChanges (autoResetPhase (encoderPhase (mediaTick
      (encTick s g) ev) count))) :=
  reedCtx_trans (reedCtx_trans (reedCtx_trans (reedCtx_trans
    (encTick_reedCtx s g) (mediaTick_reedCtx _ ev)) (encoderPhase_reedCtx _ count))
    (autoResetPhase_reedCtx _)) (handleConnectionChanges_reedCtx _)

/-
Lemmas showing no phase reads the persisted `wasConnected` flag: each phase
commutes with overwriting it.
-/

theorem sendNotification_wasConn (s : State) (b : Bool) (c : Chara) (v : String) :
    sendNotification { s with wasConnected := b } c v =
      { sendNotification s c v with wasConnected := b } := by
  cases c <;> by_cases h : s.deviceConnected = false <;>
    simp [sendNotification, h, State.setVal, State.notify, State.valOf, State.delay]

theorem encTick_wasConn (s : State) (b : Bool) (g : Option Gesture) :
    encTick { s with wasConnected := b } g = { encTick s g with wasConnected := b } := by
  cases g with
  | none => rfl
  | some g =>
      simp only [encTick]
      split_ifs <;> first | exact sendNotification_wasConn s b _ _ | rfl

theorem mediaTickOne_wasConn (s : State) (b : Bool) (i : Fin 5) (g : Option MediaGesture) :
    mediaTickOne { s with wasConnected := b } i g =
      { mediaTickOne s i g with wasConnected := b } := by
  cases g with
  | none => rfl
  | some g =>
      cases g <;> simp only [mediaTickOne] <;> split_ifs <;>
        first | exact sendNotification_wasConn s b _ _ | rfl

theorem mediaTick_wasConn (s : State) (b : Bool) (ev : Fin 5 → Option MediaGesture) :
    mediaTick { s with wasConnected := b } ev = { mediaTick s ev with wasConnected := b } := by
  simp only [mediaTick, mediaTickOne_wasConn]

theorem resetEncoder_wasConn (s : State) (b : Bool) :
    resetEncoder { s with wasConnected := b } = { resetEncoder s with wasConnected := b } := by
  simp only [resetEncoder, State.setVal, State.notify, State.valOf]
  split_ifs <;> rfl

theorem encoderPhase_wasConn (s : State) (b : Bool) (count : Int) :
    encoderPhase { s with wasConnected := b } count =
      { encoderPhase s count with wasConnected := b } := by
  simp only [encoderPhase, State.setVal, State.notify, State.valOf]
  split_ifs <;> rfl

theorem autoResetPhase_wasConn (s : State) (b : Bool) :
    autoResetPhase { s with wasConnected := b } = { autoResetPhase s with wasConnected := b } := by
  simp only [autoResetPhase]
  split_ifs <;> first | exact resetEncoder_wasConn s b | rfl

theorem handleConnectionChanges_wasConn (s : State) (b : Bool) :
    handleConnectionChanges { s with wasConnected := b } =
      { handleConnectionChanges s with wasConnected := b } := by
  simp only [handleConnectionChanges, State.setVal, State.notify, State.valOf, State.delay]
  split_ifs <;> rfl

theorem enterDeepSleep_wasConn (s : State) (b : Bool) :
    enterDeepSleep { s with wasConnected := b } = enterDeepSleep s := rfl

theorem reedPhase_wasConn (s : State) (b : Bool) (level : Bool) :
    reedPhase { s with wasConnected := b } level =
      (reedPhase s level).overWasConn b := by
  simp only [reedPhase]
  split_ifs <;> rfl

/-- Explicit description of `enterDeepSleep`. -/
theorem enterDeepSleep_eq (s : State) :
    enterDeepSleep s =
      { wasConnected := s.deviceConnected
        clientDisconnected := s.deviceConnected
        bleDeinit := s.deviceConnected
        wakeArmed := true
        finalState := { s with wasConnected := s.deviceConnected } } := rfl

/-- Position trackers are untouched by `sendNotification`. -/
theorem sendNotification_pos (s : State) (c : Chara) (v : String) :
    (sendNotification s c v).prevEncPosition = s.prevEncPosition ∧
      (sendNotification s c v).currentEncPosition = s.currentEncPosition := by
  cases c <;> by_cases h : s.deviceConnected = false <;>
    simp [sendNotification, h, State.setVal, State.notify, State.valOf, State.delay]

/-- Position trackers are untouched by the encoder-button tick. -/
theorem encTick_pos (s : State) (g : Option Gesture) :
    (encTick s g).prevEncPosition = s.prevEncPosition ∧
      (encTick s g).currentEncPosition = s.currentEncPosition := by
  cases g with
  | none => exact ⟨rfl, rfl⟩
  | some g =>
      simp only [encTick]
      split_ifs with h
      · exact sendNotification_pos s _ _
      · exact ⟨rfl, rfl⟩

/-- Position trackers are untouched by one media-button tick. -/
theorem mediaTickOne_pos (s : State) (i : Fin 5) (g : Option MediaGesture) :
    (mediaTickOne s i g).prevEncPosition = s.prevEncPosition ∧
      (mediaTickOne s i g).currentEncPosition = s.currentEncPosition := by
  cases g with
  | none => exact ⟨rfl, rfl⟩
  | some g =>
      cases g <;> simp only [mediaTickOne] <;> split_ifs <;>
        first
          | exact sendNotification_pos s _ _
          | exact ⟨rfl, rfl⟩

/-- Position trackers are untouched by the media-button ticks. -/
theorem mediaTick_pos (s : State) (ev : Fin 5 → Option MediaGesture) :
    (mediaTick s ev).prevEncPosition = s.prevEncPosition ∧
      (mediaTick s ev).currentEncPosition = s.currentEncPosition := by
  have h0 := mediaTickOne_pos s 0 (ev 0)
  have h1 := mediaTickOne_pos (mediaTickOne s 0 (ev 0)) 1 (ev 1)
  have h2 := mediaTickOne_pos (mediaTickOne (mediaTickOne s 0 (ev 0)) 1 (ev 1)) 2 (ev 2)
  have h3 := mediaTickOne_pos
    (mediaTickOne (mediaTickOne (mediaTickOne s 0 (ev 0)) 1 (ev 1)) 2 (ev 2)) 3 (ev 3)
  have h4 := mediaTickOne_pos (mediaTickOne
    (mediaTickOne (mediaTickOne (mediaTickOne s 0 (ev 0)) 1 (ev 1)) 2 (ev 2)) 3 (ev 3)) 4 (ev 4)
  exact ⟨by rw [mediaTick, h4.1, h3.1, h2.1, h1.1, h0.1],
    by rw [mediaTick, h4.2, h3.2, h2.2, h1.2, h0.2]⟩

/-- Position trackers are untouched by `handleConnectionChanges`. -/
theorem handleConnectionChanges_pos (s : State) :
    (handleConnectionChanges s).prevEncPosition = s.prevEncPosition ∧
      (handleConnectionChanges s).currentEncPosition = s.currentEncPosition := by
  simp only [handleConnectionChanges, State.setVal, State.notify, State.valOf, State.delay]
  split_ifs <;> simp

end TappieV2

namespace TappieV2C3

/-
Helper lemmas about the TappieV2C3 phases.
-/

/-- Ticking the media buttons with no resolved gestures is a no-op. -/
theorem mediaTick_none_c3 (s : State) : mediaTick s (fun _ => none) = s := rfl

/-- Ticking the encoder button with no resolved gesture is a no-op. -/
theorem encTick_none_c3 (s : State) : encTick s none = s := rfl

/-- Unfolding of `loop` into its phase pipeline. -/
theorem loop_eq_c3 (s : State) (inp : Input) :
    loop s inp =
      (batteryCheckPhase (reedCheckPhase (handleConnectionChanges (encoderRotaryLoop
        (mediaTick (encTick
          { s with now := inp.now, encoderValue := s.encoderValue + inp.encDelta }
          inp.encGesture) inp.mediaEvents)
        (decide (inp.encDelta ≠ 0)))) inp.reedLevel)).delay 2 := rfl

/-- Explicit description of this variant's `resetEncoder`: the encoder value
and the notification are gated on the connection, the timer refresh is not. -/
theorem resetEncoder_eq_c3 (s : State) :
    resetEncoder s =
      { s with
        encoderValue := if s.deviceConnected = true then 0 else s.encoderValue
        lastActivityTime := s.now
        encPosVal :=
          if s.deviceConnected = true then "reset" ++ getBatteryLevel s else s.encPosVal
        notifs := s.notifs ++
          (if s.deviceConnected = true then
            [⟨.encPos, "reset" ++ getBatteryLevel s, s.now⟩] else []) } := by
  by_cases h : s.deviceConnected = true <;>
    simp [resetEncoder, State.setVal, State.notify, State.valOf, getBatteryLevel, h]

/-- An unchanged encoder makes `encoderRotaryLoop` a no-op. -/
theorem encoderRotaryLoop_of_still (s : State) : encoderRotaryLoop s false = s := by
  simp [encoderRotaryLoop]

/-- With no pending connection edge, `handleConnectionChanges` is a no-op. -/
theorem handleConnectionChanges_of_eq_c3 (s : State)
    (h : s.oldDeviceConnected = s.deviceConnected) : handleConnectionChanges s = s := by
  cases hb : s.deviceConnected <;> simp [handleConnectionChanges, h, hb]

/-- On a pending connect edge, this variant's `handleConnectionChanges`
acknowledges it and notifies `currentEncPosition` — the global that is never
assigned after initialization in this file — plus the battery level. -/
theorem handleConnectionChanges_of_connect_c3 (s : State)
    (hc : s.deviceConnected = true) (ho : s.oldDeviceConnected = false) :
    handleConnectionChanges s =
      { s with
        oldDeviceConnected := true
        encPosVal := toString s.currentEncPosition ++ getBatteryLevel s
        notifs := s.notifs ++
          [⟨.encPos, toString s.currentEncPosition ++ getBatteryLevel s, s.now⟩] } := by
  simp [handleConnectionChanges, State.setVal, State.notify, State.valOf,
    getBatteryLevel, hc, ho]

/-- With the check interval not yet elapsed, the reed check does nothing. -/
theorem reedCheckPhase_of_early (s : State) (level : Bool)
    (h : ¬ s.now - s.lastReedCheckTime > 500) : reedCheckPhase s level = s := by
  simp [reedCheckPhase, h]

/-- A due reed check stores the sample; nothing else happens in this variant. -/
theorem reedCheckPhase_of_due (s : State) (level : Bool)
    (h : s.now - s.lastReedCheckTime > 500) :
    reedCheckPhase s level = { s with lastReedCheckTime := s.now, prevReedState := level } := by
  simp [reedCheckPhase, h]

/-- With the battery interval not yet elapsed, the battery check does nothing. -/
theorem batteryCheckPhase_of_early (s : State)
    (h : ¬ s.now - s.lastBatteryCheckTime > 300000) : batteryCheckPhase s = s := by
  simp [batteryCheckPhase, h]

/-- A due battery check refreshes its timer and calls `resetEncoder`. -/
theorem batteryCheckPhase_of_due (s : State)
    (h : s.now - s.lastBatteryCheckTime > 300000) :
    batteryCheckPhase s = resetEncoder { s with lastBatteryCheckTime := s.now } := by
  simp [batteryCheckPhase, h]

theorem batCtx_rfl (s : State) : BatCtx s s := ⟨rfl, rfl, rfl, rfl, rfl, rfl, le_refl _⟩

theorem batCtx_trans {s u w : State} (h1 : BatCtx s u) (h2 : BatCtx u w) : BatCtx s w :=
  ⟨h2.1.trans h1.1, h2.2.1.trans h1.2.1, h2.2.2.1.trans h1.2.2.1,
    h2.2.2.2.1.trans h1.2.2.2.1, h2.2.2.2.2.1.trans h1.2.2.2.2.1,
    h2.2.2.2.2.2.1.trans h1.2.2.2.2.2.1, h1.2.2.2.2.2.2.trans h2.2.2.2.2.2.2⟩

theorem sendNotification_batCtx (s : State) (c : Chara) (v : String) :
    BatCtx s (sendNotification s c v) := by
  cases c <;> by_cases h : s.deviceConnected = false <;>
    simp [sendNotification, h, BatCtx, State.setVal, State.notify, State.valOf, State.delay]

theorem encTick_batCtx (s : State) (g : Option Gesture) : BatCtx s (encTick s g) := by
  cases g with
  | none => exact batCtx_rfl s
  | some g =>
      simp only [encTick]
      split_ifs with h
      · exact sendNotification_batCtx s _ _
      · exact batCtx_rfl s

theorem mediaTickOne_batCtx (s : State) (i : Fin 5) (g : Option MediaGesture) :
    BatCtx s (mediaTickOne s i g) := by
  cases g with
  | none => exact batCtx_rfl s
  | some g =>
      cases g <;> simp only [mediaTickOne] <;> split_ifs <;>
        first
          | exact sendNotification_batCtx s _ _
          | exact batCtx_rfl s

theorem mediaTick_batCtx (s : State) (ev : Fin 5 → Option MediaGesture) :
    BatCtx s (mediaTick s ev) :=
  batCtx_trans (batCtx_trans (batCtx_trans (batCtx_trans
    (mediaTickOne_batCtx s 0 (ev 0)) (mediaTickOne_batCtx _ 1 (ev 1)))
    (mediaTickOne_batCtx _ 2 (ev 2))) (mediaTickOne_batCtx _ 3 (ev 3)))
    (mediaTickOne_batCtx _ 4 (ev 4))

theorem encoderRotaryLoop_batCtx (s : State) (changed : Bool) :
    BatCtx s (encoderRotaryLoop s changed) := by
  by_cases hc : s.deviceConnected = true <;>
    simp only [encoderRotaryLoop, State.setVal, State.notify, State.valOf] <;>
    split_ifs <;> simp_all [BatCtx]

theorem handleConnectionChanges_batCtx (s : State) :
    BatCtx s (handleConnectionChanges s) := by
  simp only [handleConnectionChanges, State.setVal, State.notify, State.valOf, State.delay]
  split_ifs <;> simp [BatCtx]

/-- Composite of all phases that run before the reed check preserves the
reed/battery context. -/
theorem preReed_batCtx (s : State) (g : Option Gesture) (ev : Fin 5 → Option MediaGesture)
    (changed : Bool) :
    BatCtx s (handleConnectionChanges (encoderRotaryLoop (mediaTick (encTick s g) ev)
      changed)) :=
  batCtx_trans (batCtx_trans (batCtx_trans
    (encTick_batCtx s g) (mediaTick_batCtx _ ev)) (encoderRotaryLoop_batCtx _ changed))
    (handleConnectionChanges_batCtx _)

/-
Lemmas showing no phase of this variant reads `wasConnected` either.
-/

theorem sendNotification_wasConn_c3 (s : State) (b : Bool) (c : Chara) (v : String) :
    sendNotification { s with wasConnected := b } c v =
      { sendNotification s c v with wasConnected := b } := by
  cases c <;> by_cases h : s.deviceConnected = false <;>
    simp [sendNotification, h, State.setVal, State.notify, State.valOf, State.delay]

theorem encTick_wasConn_c3 (s : State) (b : Bool) (g : Option Gesture) :
    encTick { s with wasConnected := b } g = { encTick s g with wasConnected := b } := by
  cases g with
  | none => rfl
  | some g =>
      simp only [encTick]
      split_ifs <;> first | exact sendNotification_wasConn_c3 s b _ _ | rfl

theorem mediaTickOne_wasConn_c3 (s : State) (b : Bool) (i : Fin 5) (g : Option MediaGesture) :
    mediaTickOne { s with wasConnected := b } i g =
      { mediaTickOne s i g with wasConnected := b } := by
  cases g with
  | none => rfl
  | some g =>
      cases g <;> simp only [mediaTickOne] <;> split_ifs <;>
        first | exact sendNotification_wasConn_c3 s b _ _ | rfl

theorem mediaTick_wasConn_c3 (s : State) (b : Bool) (ev : Fin 5 → Option MediaGesture) :
    mediaTick { s with wasConnected := b } ev = { mediaTick s ev with wasConnected := b } := by
  simp only [mediaTick, mediaTickOne_wasConn_c3]

theorem resetEncoder_wasConn_c3 (s : State) (b : Bool) :
    resetEncoder { s with wasConnected := b } = { resetEncoder s with wasConnected := b } := by
  simp only [resetEncoder, State.setVal, State.notify, State.valOf]
  split_ifs <;> rfl

theorem encoderRotaryLoop_wasConn (s : State) (b : Bool) (changed : Bool) :
    encoderRotaryLoop { s with wasConnected := b } changed =
      { encoderRotaryLoop s changed with wasConnected := b } := by
  simp only [encoderRotaryLoop, State.setVal, State.notify, State.valOf, getBatteryLevel]
  split_ifs <;> rfl

theorem handleConnectionChanges_wasConn_c3 (s : State) (b : Bool) :
    handleConnectionChanges { s with wasConnected := b } =
      { handleConnectionChanges s with wasConnected := b } := by
  simp only [handleConnectionChanges, State.setVal, State.notify, State.valOf, State.delay,
    getBatteryLevel]
  split_ifs <;> rfl

theorem reedCheckPhase_wasConn (s : State) (b : Bool) (level : Bool) :
    reedCheckPhase { s with wasConnected := b } level =
      { reedCheckPhase s level with wasConnected := b } := by
  simp only [reedCheckPhase]
  split_ifs <;> rfl

theorem batteryCheckPhase_wasConn (s : State) (b : Bool) :
    batteryCheckPhase { s with wasConnected := b } =
      { batteryCheckPhase s with wasConnected := b } := by
  by_cases h : s.now - s.lastBatteryCheckTime > 300000 <;>
    simp [batteryCheckPhase, h, resetEncoder_eq_c3, getBatteryLevel]

/-- The full TappieV2C3 loop never reads nor writes `wasConnected`: it only
carries the flag through. -/
theorem loop_wasConn_c3 (s : State) (b : Bool) (inp : Input) :
    loop { s with wasConnected := b } inp = { loop s inp with wasConnected := b } := by
  rw [loop_eq_c3, loop_eq_c3]
  have h0 : ({ ({ s with wasConnected := b } : State) with
      now := inp.now, encoderValue := s.encoderValue + inp.encDelta } : State) =
      { ({ s with now := inp.now, encoderValue := s.encoderValue + inp.encDelta } : State) with
        wasConnected := b } := rfl
  rw [h0, encTick_wasConn_c3, mediaTick_wasConn_c3, encoderRotaryLoop_wasConn,
    handleConnectionChanges_wasConn_c3, reedCheckPhase_wasConn, batteryCheckPhase_wasConn]
  rfl

end TappieV2C3

namespace TappieV2

/-- The full TappieV2 loop never reads `wasConnected`: the flag is carried
through unchanged until `enterDeepSleep` overwrites it with `deviceConnected`. -/
theorem loop_wasConn (s : State) (b : Bool) (inp : Input) :
    loop { s with wasConnected := b } inp = (loop s inp).overWasConn b := by
  rw [loop_eq, loop_eq]
  have h0 : ({ ({ s with wasConnected := b } : State) with now := inp.now } : State) =
      { ({ s with now := inp.now } : State) with wasConnected := b } := rfl
  rw [h0, encTick_wasConn, mediaTick_wasConn, encoderPhase_wasConn, autoResetPhase_wasConn,
    handleConnectionChanges_wasConn, reedPhase_wasConn]
  cases hres : reedPhase (handleConnectionChanges (autoResetPhase (encoderPhase (mediaTick
      (encTick { s with now := inp.now } inp.encGesture) inp.mediaEvents)
      inp.encoderCount))) inp.reedLevel with
  | next u => simp [LoopResult.overWasConn, State.delay]
  | halted r => simp [LoopResult.overWasConn]

/-- Explicit description of the encoder block when the position changed. -/
theorem encoderPhase_of_diff (s : State) (count : Int)
    (h : Int.tdiv count 2 ≠ s.prevEncPosition) :
    encoderPhase s count =
      { s with
        encoderCount := count
        currentEncPosition := Int.tdiv count 2
        prevEncPosition := Int.tdiv count 2
        lastActivityTime := s.now
        encPosVal :=
          if s.deviceConnected = true then
            toString (Int.tdiv count 2) ++ getBatteryLevel else s.encPosVal
        notifs := s.notifs ++
          (if s.deviceConnected = true then
            [⟨.encPos, toString (Int.tdiv count 2) ++ getBatteryLevel, s.now⟩] else []) } := by
  by_cases hc : s.deviceConnected = true <;>
    simp [encoderPhase, h, hc, State.setVal, State.notify, State.valOf]

/-- A continuing reed phase changes at most the reed sampling bookkeeping. -/
theorem reedPhase_next_frame (s : State) (level : Bool) (u : State)
    (h : reedPhase s level = .next u) :
    u.deviceConnected = s.deviceConnected ∧ u.oldDeviceConnected = s.oldDeviceConnected ∧
      u.prevEncPosition = s.prevEncPosition ∧ u.currentEncPosition = s.currentEncPosition ∧
      u.encoderCount = s.encoderCount ∧ u.lastActivityTime = s.lastActivityTime ∧
      u.notifs = s.notifs ∧ u.now = s.now := by
  simp only [reedPhase] at h
  split_ifs at h with h1 h2
  · injection h with h; subst h; simp
  · injection h with h; subst h; simp

end TappieV2

namespace TappieV2C3

/-- The reed check changes at most its own sampling bookkeeping. -/
theorem reedCheckPhase_frame (s : State) (level : Bool) :
    (reedCheckPhase s level).deviceConnected = s.deviceConnected ∧
      (reedCheckPhase s level).battery = s.battery ∧
      (reedCheckPhase s level).lastBatteryCheckTime = s.lastBatteryCheckTime ∧
      (reedCheckPhase s level).notifs = s.notifs ∧
      (reedCheckPhase s level).now = s.now ∧
      (reedCheckPhase s level).wasConnected = s.wasConnected ∧
      (reedCheckPhase s level).encoderValue = s.encoderValue ∧
      (reedCheckPhase s level).lastActivityTime = s.lastActivityTime := by
  by_cases h : s.now - s.lastReedCheckTime > 500 <;> simp [reedCheckPhase, h]

/-- The battery check never touches `wasConnected`. -/
theorem batteryCheckPhase_wc (s : State) :
    (batteryCheckPhase s).wasConnected = s.wasConnected := by
  by_cases h : s.now - s.lastBatteryCheckTime > 300000 <;>
    simp [batteryCheckPhase, h, resetEncoder_eq_c3]

/-- The TappieV2C3 loop never writes the sleep-persisted flag: `wasConnected`
is preserved by every iteration (its only writer, `enterDeepSleep`, is never
called). -/
theorem loop_wasConnected_preserved (t : State) (inp : Input) :
    (loop t inp).wasConnected = t.wasConnected := by
  rw [loop_eq_c3]
  have hb := preReed_batCtx
    { t with now := inp.now, encoderValue := t.encoderValue + inp.encDelta }
    inp.encGesture inp.mediaEvents (decide (inp.encDelta ≠ 0))
  rw [State.delay]
  rw [batteryCheckPhase_wc, (reedCheckPhase_frame _ inp.reedLevel).2.2.2.2.2.1]
  exact hb.2.2.2.2.2.1

end TappieV2C3

/-
Claim theorems.
-/

/-- C1: while connected, `sendNotification` on the per-button double-click
channel (`mediaDoubleButtonChara`) emits exactly ONE notification and leaves
the value at the event string instead of clearing it to "0" — the
pulse-then-clear guard names only `encButtonChara` and `mediaButtonChara`, in
both variants, contradicting the code's own comment that every button-action
characteristic is reset after the delay.  The same call on the two guarded
channels does produce the documented pair with the clear 100 ms later. -/
theorem doubleClick_channel_not_pulsed :
    (TappieV2.sendNotification v2Connected .mediaDoubleButton "Aux").notifs =
      [⟨.mediaDoubleButton, "Aux", 1000⟩] ∧
    (TappieV2.sendNotification v2Connected .mediaDoubleButton "Aux").mediaDoubleVal = "Aux" ∧
    (TappieV2.sendNotification v2Connected .encButton "single click").notifs =
      [⟨.encButton, "single click", 1000⟩, ⟨.encButton, "0", 1100⟩] ∧
    (TappieV2.sendNotification v2Connected .mediaButton "Gaming").notifs =
      [⟨.mediaButton, "Gaming", 1000⟩, ⟨.mediaButton, "0", 1100⟩] ∧
    (TappieV2C3.sendNotification c3Connected .mediaDoubleButton "Aux").notifs =
      [⟨.mediaDoubleButton, "Aux", 0⟩] := by
  refine ⟨by decide, by decide, by decide, by decide, by decide⟩

/-- C4 counterexample: the TappieV2C3 variant performs no boot-time check of
the sleep sensor; booting with the reed switch already at the "sleep" level
completes initialization and starts BLE advertising instead of re-entering
the low-power halt. -/
theorem c3_boot_advertises_despite_sleep_level :
    (TappieV2C3.setup false false 49).advertising = true ∧
    (TappieV2C3.setup false false 49).deviceConnected = false := by
  refine ⟨by decide, by decide⟩

/-- C4 (amended): in the TappieV2 variant, a boot with the reed switch
already reading "sleep" re-enters deep sleep without completing
initialization — the halt record shows no BLE teardown was needed, the wake
interrupt armed, and a final state in which advertising never started and no
notification was ever emitted.  The TappieV2C3 variant has no such check: its
setup always completes with advertising running. -/
theorem boot_sleep_gate :
    (∀ w : Bool, TappieV2.setup false w =
      .halted
        { wasConnected := false
          clientDisconnected := false
          bleDeinit := false
          wakeArmed := true
          finalState := { TappieV2.initialState false with now := 100 } }) ∧
    (∀ (lvl w : Bool) (b : Int), (TappieV2C3.setup lvl w b).advertising = true) :=
  ⟨fun _ => rfl, fun _ _ _ => rfl⟩

/-- C5: `send()` on any channel while disconnected is a no-op in both
variants: the returned state — notification trace and all four characteristic
values included — is exactly the input state. -/
theorem sendNotification_disconnected_noop :
    (∀ (s : TappieV2.State) (c : Chara) (v : String), s.deviceConnected = false →
      TappieV2.sendNotification s c v = s) ∧
    (∀ (t : TappieV2C3.State) (c : Chara) (v : String), t.deviceConnected = false →
      TappieV2C3.sendNotification t c v = t) :=
  ⟨fun _ _ _ h => by simp [TappieV2.sendNotification, h],
   fun _ _ _ h => by simp [TappieV2C3.sendNotification, h]⟩

/-- Witness for C5 at concrete disconnected states of both variants. -/
theorem sendNotification_disconnected_noop_witness :
    v2IdleDisconnected.deviceConnected = false ∧
    TappieV2.sendNotification v2IdleDisconnected .encButton "single click" =
      v2IdleDisconnected ∧
    c3Disconnected5.deviceConnected = false ∧
    TappieV2C3.sendNotification c3Disconnected5 .mediaButton "Aux" = c3Disconnected5 :=
  ⟨by decide,
   sendNotification_disconnected_noop.1 v2IdleDisconnected .encButton "single click" (by decide),
   by decide,
   sendNotification_disconnected_noop.2 c3Disconnected5 .mediaButton "Aux" (by decide)⟩

/-- C7 counterexample: in the TappieV2C3 variant, `resetEncoder` called while
disconnected refreshes the activity timestamp but leaves the encoder position
untouched — `rotaryEncoder.reset(0)` sits inside the connection guard. -/
theorem c3_reset_disconnected_keeps_position :
    c3Disconnected5.deviceConnected = false ∧
    c3Disconnected5.encoderValue = 5 ∧
    (TappieV2C3.resetEncoder c3Disconnected5).encoderValue = 5 ∧
    (TappieV2C3.resetEncoder c3Disconnected5).lastActivityTime = 700 := by
  refine ⟨by decide, by decide, by decide, by decide⟩

/-- C7 (amended): every `resetEncoder` call refreshes the activity timestamp
in both variants; in TappieV2 it also zeroes the hardware count and both
position trackers regardless of connection state, while in TappieV2C3 the
encoder value is zeroed only when a client is connected. -/
theorem resetEncoder_effects :
    (∀ s : TappieV2.State,
      (TappieV2.resetEncoder s).currentEncPosition = 0 ∧
      (TappieV2.resetEncoder s).prevEncPosition = 0 ∧
      (TappieV2.resetEncoder s).encoderCount = 0 ∧
      (TappieV2.resetEncoder s).lastActivityTime = s.now) ∧
    (∀ t : TappieV2C3.State,
      (TappieV2C3.resetEncoder t).lastActivityTime = t.now ∧
      (TappieV2C3.resetEncoder t).encoderValue =
        (if t.deviceConnected = true then 0 else t.encoderValue)) :=
  ⟨fun s => by rw [TappieV2.resetEncoder_eq]; exact ⟨rfl, rfl, rfl, rfl⟩,
   fun t => by rw [TappieV2C3.resetEncoder_eq_c3]; exact ⟨rfl, rfl⟩⟩

/-- C10: the sleep-surviving flag `wasConnected` is written by
`enterDeepSleep` but read nowhere: running either variant's loop on two
states that differ only in that flag yields identical observable behavior.
The flag is carried through unchanged — and a TappieV2 halt record does not
depend on it, because `enterDeepSleep` overwrites it with `deviceConnected`
before persisting. -/
theorem wasConnected_never_read :
    (∀ (s : TappieV2.State) (b : Bool) (inp : TappieV2.Input),
      TappieV2.loop { s with wasConnected := b } inp =
        (TappieV2.loop s inp).overWasConn b) ∧
    (∀ (t : TappieV2C3.State) (b : Bool) (inp : TappieV2C3.Input),
      TappieV2C3.loop { t with wasConnected := b } inp =
        { TappieV2C3.loop t inp with wasConnected := b }) :=
  ⟨TappieV2.loop_wasConn, TappieV2C3.loop_wasConn_c3⟩

/-- C2 counterexample.  First, TappieV2 while disconnected: after six idle
seconds at position 3, the next iteration does reset the position to 0 but
emits ZERO notifications, not the claimed one.  Second, TappieV2C3 while
connected: after six idle seconds at encoder value 3, the next iteration
performs no reset at all and emits nothing — that variant's loop has no
inactivity-based auto-reset. -/
theorem idle_reset_notification_divergence :
    v2IdleInput.now - v2IdleDisconnected.lastActivityTime > 5000 ∧
    v2IdleDisconnected.currentEncPosition = 3 ∧
    v2IdleDisconnected.deviceConnected = false ∧
    (TappieV2.loop v2IdleDisconnected v2IdleInput).notifsOf = [] ∧
    (TappieV2.loop v2IdleDisconnected v2IdleInput).getNext?.map
      TappieV2.State.currentEncPosition = some 0 ∧
    c3IdleInput.now - c3Connected.lastActivityTime > 5000 ∧
    c3Connected.deviceConnected = true ∧
    c3Connected.encoderValue = 3 ∧
    (TappieV2C3.loop c3Connected c3IdleInput).encoderValue = 3 ∧
    (TappieV2C3.loop c3Connected c3IdleInput).notifs = [] := by
  refine ⟨by decide, by decide, by decide, by decide, by decide, by decide, by decide,
    by decide, by decide, by decide⟩

/-- C3 counterexample: with a connect edge pending (`deviceConnected` already
true, `oldDeviceConnected` still false), a single-click gesture resolved in
the same loop iteration is notified — with its "0" clear — BEFORE the
resynchronization notification, because the button ticks run before
`handleConnectionChanges()`.  The first notification after the transition is
the user-driven gesture, not the resynchronization. -/
theorem resync_after_user_notification :
    v2ConnectPending.deviceConnected = true ∧
    v2ConnectPending.oldDeviceConnected = false ∧
    (TappieV2.loop v2ConnectPending v2GestureInput).notifsOf =
      [⟨.encButton, "single click", 1000⟩, ⟨.encButton, "0", 1100⟩,
        ⟨.encPos, "0 49", 1100⟩] ∧
    ((TappieV2.loop v2ConnectPending v2GestureInput).notifsOf.map Notif.chara).head? =
      some Chara.encButton := by
  refine ⟨by decide, by decide, by decide, by decide⟩

/-- C6 counterexample.  First, TappieV2C3: a sampled falling edge (previous
sample HIGH, current LOW) performs no shutdown at all — the loop continues,
stores the sample, persists nothing and keeps advertising, because the
`enterDeepSleep()` call is commented out.  Second, TappieV2 with no client
connected: the falling edge does halt, but the BLE transport is NOT torn down
(`BLEDevice::deinit` sits inside the `if (deviceConnected)` block). -/
theorem falling_edge_divergence :
    c3ReedDue.prevReedState = true ∧
    (TappieV2C3.loop c3ReedDue c3FallingInput).prevReedState = false ∧
    (TappieV2C3.loop c3ReedDue c3FallingInput).notifs = [] ∧
    (TappieV2C3.loop c3ReedDue c3FallingInput).wasConnected = c3ReedDue.wasConnected ∧
    (TappieV2C3.loop c3ReedDue c3FallingInput).advertising = true ∧
    v2AwakeDisconnected.prevReedState = true ∧
    v2AwakeDisconnected.deviceConnected = false ∧
    (TappieV2.loop v2AwakeDisconnected v2FallingInput).getHalt?.map
      TappieV2.SleepRecord.bleDeinit = some false ∧
    (TappieV2.loop v2AwakeDisconnected v2FallingInput).getHalt?.map
      TappieV2.SleepRecord.wakeArmed = some true := by
  refine ⟨by decide, by decide, by decide, by decide, by decide, by decide, by decide,
    by decide, by decide⟩

/-- C8 counterexample: at a state where the current position (3) equals the
last-notified position (3), the idle auto-reset's dispatch decision still
rewrites `prevEncPosition` to 0 — the last-notified position changes although
it did not differ from the current position at the decision. -/
theorem prev_position_reset_while_equal :
    v2IdleDisconnected.currentEncPosition = v2IdleDisconnected.prevEncPosition ∧
    v2IdleDisconnected.prevEncPosition = 3 ∧
    Int.tdiv v2IdleInput.encoderCount 2 = 3 ∧
    (TappieV2.loop v2IdleDisconnected v2IdleInput).getNext?.map
      TappieV2.State.prevEncPosition = some 0 := by
  refine ⟨by decide, by decide, by decide, by decide⟩

/-- Effects of a due battery check followed by the trailing `delay(2)`. -/
theorem c3_due_battery_effects (Y : TappieV2C3.State)
    (hcond : Y.now - Y.lastBatteryCheckTime > 300000) :
    ((TappieV2C3.batteryCheckPhase Y).delay 2).lastActivityTime =
      ((TappieV2C3.batteryCheckPhase Y).delay 2).lastBatteryCheckTime ∧
    ((TappieV2C3.batteryCheckPhase Y).delay 2).lastBatteryCheckTime = Y.now ∧
    ((TappieV2C3.batteryCheckPhase Y).delay 2).notifs = Y.notifs ++
      (if Y.deviceConnected = true then
        [⟨Chara.encPos, "reset" ++ (" " ++ toString Y.battery), Y.now⟩] else []) ∧
    ((TappieV2C3.batteryCheckPhase Y).delay 2).encoderValue =
      (if Y.deviceConnected = true then 0 else Y.encoderValue) := by
  rw [TappieV2C3.batteryCheckPhase_of_due _ hcond, TappieV2C3.resetEncoder_eq_c3]
  simp [TappieV2C3.State.delay, TappieV2C3.getBatteryLevel]

/-- C9: in the TappieV2C3 variant, any loop iteration starting more than
300000 ms after the last battery-check time invokes `resetEncoder`
unconditionally — no hypothesis on user inactivity, the encoder position, or
anything else is needed: the battery-check timer and the activity timestamp
are both refreshed, and when a client is connected the iteration's last
notification is the reset payload on the position channel and the encoder
value is zeroed. -/
theorem c3_battery_interval_reset (t : TappieV2C3.State) (inp : TappieV2C3.Input)
    (h : inp.now - t.lastBatteryCheckTime > 300000) :
    (TappieV2C3.loop t inp).lastActivityTime =
      (TappieV2C3.loop t inp).lastBatteryCheckTime ∧
    inp.now ≤ (TappieV2C3.loop t inp).lastBatteryCheckTime ∧
    (t.deviceConnected = true →
      (TappieV2C3.loop t inp).notifs.getLast? =
        some ⟨Chara.encPos, "reset" ++ (" " ++ toString t.battery),
          (TappieV2C3.loop t inp).lastBatteryCheckTime⟩ ∧
      (TappieV2C3.loop t inp).encoderValue = 0) := by
  obtain ⟨hdc, hbat, hlbc, hlrc, hprs, hwc, hnow⟩ :=
    TappieV2C3.preReed_batCtx
      { t with now := inp.now, encoderValue := t.encoderValue + inp.encDelta }
      inp.encGesture inp.mediaEvents (decide (inp.encDelta ≠ 0))
  obtain ⟨hfdc, hfbat, hflbc, hfnot, hfnow, hfwc, hfenc, hflat⟩ :=
    TappieV2C3.reedCheckPhase_frame
      (TappieV2C3.handleConnectionChanges (TappieV2C3.encoderRotaryLoop
        (TappieV2C3.mediaTick (TappieV2C3.encTick
          { t with now := inp.now, encoderValue := t.encoderValue + inp.encDelta }
          inp.encGesture) inp.mediaEvents)
        (decide (inp.encDelta ≠ 0)))) inp.reedLevel
  have hcond :
      (TappieV2C3.reedCheckPhase
        (TappieV2C3.handleConnectionChanges (TappieV2C3.encoderRotaryLoop
          (TappieV2C3.mediaTick (TappieV2C3.encTick
            { t with now := inp.now, encoderValue := t.encoderValue + inp.encDelta }
            inp.encGesture) inp.mediaEvents)
          (decide (inp.encDelta ≠ 0)))) inp.reedLevel).now -
        (TappieV2C3.reedCheckPhase
          (TappieV2C3.handleConnectionChanges (TappieV2C3.encoderRotaryLoop
            (TappieV2C3.mediaTick (TappieV2C3.encTick
              { t with now := inp.now, encoderValue := t.encoderValue + inp.encDelta }
              inp.encGesture) inp.mediaEvents)
            (decide (inp.encDelta ≠ 0)))) inp.reedLevel).lastBatteryCheckTime > 300000 := by
    rw [hfnow, hflbc, hlbc]
    exact lt_of_lt_of_le h (Nat.sub_le_sub_right hnow _)
  obtain ⟨e1, e2, e3, e4⟩ := c3_due_battery_effects _ hcond
  rw [TappieV2C3.loop_eq_c3]
  refine ⟨by rw [e1], by rw [e2, hfnow]; exact hnow, fun hc => ?_⟩
  have hdcX : (TappieV2C3.reedCheckPhase
      (TappieV2C3.handleConnectionChanges (TappieV2C3.encoderRotaryLoop
        (TappieV2C3.mediaTick (TappieV2C3.encTick
          { t with now := inp.now, encoderValue := t.encoderValue + inp.encDelta }
          inp.encGesture) inp.mediaEvents)
        (decide (inp.encDelta ≠ 0)))) inp.reedLevel).deviceConnected = true := by
    rw [hfdc, hdc]; exact hc
  have hbatX : (TappieV2C3.reedCheckPhase
      (TappieV2C3.handleConnectionChanges (TappieV2C3.encoderRotaryLoop
        (TappieV2C3.mediaTick (TappieV2C3.encTick
          { t with now := inp.now, encoderValue := t.encoderValue + inp.encDelta }
          inp.encGesture) inp.mediaEvents)
        (decide (inp.encDelta ≠ 0)))) inp.reedLevel).battery = t.battery := by
    rw [hfbat, hbat]
  constructor
  · rw [e3, hdcX, e2, hfnow, hbatX]
    simp [List.getLast?_concat]
  · rw [e4, hdcX]
    simp

/-- Witness for C9 at a concrete overdue-battery state. -/
theorem c3_battery_interval_reset_witness :
    c3BatteryInput.now - c3BatteryDue.lastBatteryCheckTime > 300000 ∧
    ((TappieV2C3.loop c3BatteryDue c3BatteryInput).lastActivityTime =
      (TappieV2C3.loop c3BatteryDue c3BatteryInput).lastBatteryCheckTime ∧
    c3BatteryInput.now ≤ (TappieV2C3.loop c3BatteryDue c3BatteryInput).lastBatteryCheckTime ∧
    (c3BatteryDue.deviceConnected = true →
      (TappieV2C3.loop c3BatteryDue c3BatteryInput).notifs.getLast? =
        some ⟨Chara.encPos, "reset" ++ (" " ++ toString c3BatteryDue.battery),
          (TappieV2C3.loop c3BatteryDue c3BatteryInput).lastBatteryCheckTime⟩ ∧
      (TappieV2C3.loop c3BatteryDue c3BatteryInput).encoderValue = 0)) :=
  ⟨by decide, c3_battery_interval_reset c3BatteryDue c3BatteryInput (by decide)⟩

/-- C6 (amended): in the TappieV2 variant, every sampled falling edge of the
reed switch (previous sample HIGH, current LOW, check interval elapsed) makes
the iteration halt through `enterDeepSleep`: the persisted flag records
whether a client was connected, the client is disconnected and the BLE stack
deinitialized exactly when one was connected, and the rising-edge wake is
armed.  In the TappieV2C3 variant the sleep entry is disabled: no iteration
ever writes the persisted flag (and none can halt — its loop total function
returns a successor state). -/
theorem falling_edge_shutdown :
    (∀ (s : TappieV2.State) (inp : TappieV2.Input),
      inp.now - s.lastReedCheckTime > 500 → inp.reedLevel = false →
      s.prevReedState = true →
      ∃ r, TappieV2.loop s inp = .halted r ∧
        r.wasConnected = s.deviceConnected ∧
        r.clientDisconnected = s.deviceConnected ∧
        r.bleDeinit = s.deviceConnected ∧
        r.wakeArmed = true) ∧
    (∀ (t : TappieV2C3.State) (inp : TappieV2C3.Input),
      (TappieV2C3.loop t inp).wasConnected = t.wasConnected) := by
  constructor
  · intro s inp h1 h2 h3
    obtain ⟨hdc, hprs, hlrc, hnow⟩ := TappieV2.preReed_reedCtx { s with now := inp.now }
      inp.encGesture inp.mediaEvents inp.encoderCount
    rw [TappieV2.loop_eq, h2]
    set X := TappieV2.handleConnectionChanges (TappieV2.autoResetPhase (TappieV2.encoderPhase
      (TappieV2.mediaTick (TappieV2.encTick { s with now := inp.now } inp.encGesture)
      inp.mediaEvents) inp.encoderCount)) with hX
    have hprevX : X.prevReedState = true := by rw [hprs]; exact h3
    have hcond : X.now - X.lastReedCheckTime > 500 := by
      rw [hlrc]; exact lt_of_lt_of_le h1 (Nat.sub_le_sub_right hnow _)
    rw [TappieV2.reedPhase_of_falling X hcond hprevX]
    exact ⟨_, rfl, hdc, hdc, hdc, rfl⟩
  · exact TappieV2C3.loop_wasConnected_preserved

/-- Witness for C6 at a concrete falling-edge state of each variant. -/
theorem falling_edge_shutdown_witness :
    (v2FallingInput.now - v2AwakeDisconnected.lastReedCheckTime > 500 ∧
      v2FallingInput.reedLevel = false ∧ v2AwakeDisconnected.prevReedState = true) ∧
    (∃ r, TappieV2.loop v2AwakeDisconnected v2FallingInput = .halted r ∧
      r.wasConnected = v2AwakeDisconnected.deviceConnected ∧
      r.clientDisconnected = v2AwakeDisconnected.deviceConnected ∧
      r.bleDeinit = v2AwakeDisconnected.deviceConnected ∧
      r.wakeArmed = true) ∧
    (TappieV2C3.loop c3ReedDue c3FallingInput).wasConnected = c3ReedDue.wasConnected :=
  ⟨⟨by decide, rfl, rfl⟩,
   falling_edge_shutdown.1 v2AwakeDisconnected v2FallingInput (by decide) rfl rfl,
   falling_edge_shutdown.2 c3ReedDue c3FallingInput⟩

/-- Helper: with a connect edge pending (callback already set
`deviceConnected`, main loop not yet run) and nothing else happening in the
iteration, the TappieV2 loop emits exactly one resynchronization notification
carrying the current position and battery level, acknowledging the edge; and
once `oldDeviceConnected` equals `deviceConnected`, `handleConnectionChanges`
is a no-op. -/
theorem v2_connect_resync_once (s : TappieV2.State) (inp : TappieV2.Input)
    (hc : s.deviceConnected = true) (ho : s.oldDeviceConnected = false)
    (hg : inp.encGesture = none) (hm : inp.mediaEvents = (fun _ => none))
    (hcount : Int.tdiv inp.encoderCount 2 = s.prevEncPosition)
    (hidle : ¬ inp.now - s.lastActivityTime > 5000)
    (hreed : inp.reedLevel = true) :
    (∃ s', TappieV2.loop s inp = .next s' ∧
      s'.notifs = s.notifs ++
        [⟨Chara.encPos, toString s.prevEncPosition ++ TappieV2.getBatteryLevel, inp.now⟩] ∧
      s'.oldDeviceConnected = true ∧ s'.deviceConnected = true) ∧
    (∀ u : TappieV2.State, u.oldDeviceConnected = u.deviceConnected →
      TappieV2.handleConnectionChanges u = u) := by
  refine ⟨?_, TappieV2.handleConnectionChanges_of_eq⟩
  rw [TappieV2.loop_eq, hg, hm, hreed, TappieV2.encTick_none, TappieV2.mediaTick_none,
    TappieV2.encoderPhase_of_same _ _ (by exact hcount),
    TappieV2.autoResetPhase_of_recent _ (by exact hidle),
    TappieV2.handleConnectionChanges_of_connect _ (by exact hc) (by exact ho),
    TappieV2.reedPhase_of_awake]
  refine ⟨_, rfl, ?_, ?_, ?_⟩ <;>
    · by_cases hr :
        (({ ({ ({ s with now := inp.now } : TappieV2.State) with
            encoderCount := inp.encoderCount,
            currentEncPosition := Int.tdiv inp.encoderCount 2 } : TappieV2.State) with
          oldDeviceConnected := true
          encPosVal := toString (Int.tdiv inp.encoderCount 2) ++ TappieV2.getBatteryLevel
          notifs := s.notifs ++
            [⟨Chara.encPos, toString (Int.tdiv inp.encoderCount 2) ++
              TappieV2.getBatteryLevel, inp.now⟩] } : TappieV2.State).now -
          ({ ({ ({ s with now := inp.now } : TappieV2.State) with
            encoderCount := inp.encoderCount,
            currentEncPosition := Int.tdiv inp.encoderCount 2 } : TappieV2.State) with
          oldDeviceConnected := true
          encPosVal := toString (Int.tdiv inp.encoderCount 2) ++ TappieV2.getBatteryLevel
          notifs := s.notifs ++
            [⟨Chara.encPos, toString (Int.tdiv inp.encoderCount 2) ++
              TappieV2.getBatteryLevel, inp.now⟩] } : TappieV2.State).lastReedCheckTime >
          500) <;>
      simp [hr, TappieV2.State.delay, hcount, hc]

/-- C3 (amended): connection-resynchronization behavior of both variants.
In TappieV2, the first loop iteration after the connect callback emits
exactly one resynchronization notification carrying the current encoder
position and the battery level, and `handleConnectionChanges` is a no-op once
the edge is acknowledged, so no further resynchronization is emitted while
the connection persists; user events processed in the same iteration precede
the resynchronization (see the counterexample).  In TappieV2C3, the connect
callback itself first emits a reset notification (`onConnect` calls
`resetEncoder`, zeroing the live encoder value), and the loop's subsequent
single resynchronization carries the never-assigned `currentEncPosition`
global plus the battery level — not the live encoder reading, which the
iteration leaves untouched; that variant's `handleConnectionChanges` is
likewise a no-op once the edge is acknowledged. -/
theorem connect_resync_behavior :
    (∀ (s : TappieV2.State) (inp : TappieV2.Input),
      s.deviceConnected = true → s.oldDeviceConnected = false →
      inp.encGesture = none → inp.mediaEvents = (fun _ => none) →
      Int.tdiv inp.encoderCount 2 = s.prevEncPosition →
      ¬ inp.now - s.lastActivityTime > 5000 → inp.reedLevel = true →
      ∃ s', TappieV2.loop s inp = .next s' ∧
        s'.notifs = s.notifs ++
          [⟨Chara.encPos, toString s.prevEncPosition ++ TappieV2.getBatteryLevel,
            inp.now⟩] ∧
        s'.oldDeviceConnected = true ∧ s'.deviceConnected = true) ∧
    (∀ u : TappieV2.State, u.oldDeviceConnected = u.deviceConnected →
      TappieV2.handleConnectionChanges u = u) ∧
    (∀ t0 : TappieV2C3.State,
      (TappieV2C3.onConnect t0).notifs = t0.notifs ++
        [⟨Chara.encPos, "reset" ++ (" " ++ toString t0.battery), t0.now⟩] ∧
      (TappieV2C3.onConnect t0).encoderValue = 0 ∧
      (TappieV2C3.onConnect t0).deviceConnected = true ∧
      (TappieV2C3.onConnect t0).oldDeviceConnected = t0.oldDeviceConnected ∧
      (TappieV2C3.onConnect t0).currentEncPosition = t0.currentEncPosition) ∧
    (∀ (t : TappieV2C3.State) (inp : TappieV2C3.Input),
      t.deviceConnected = true → t.oldDeviceConnected = false →
      inp.encGesture = none → inp.mediaEvents = (fun _ => none) → inp.encDelta = 0 →
      ¬ inp.now - t.lastBatteryCheckTime > 300000 →
      (TappieV2C3.loop t inp).notifs = t.notifs ++
        [⟨Chara.encPos, toString t.currentEncPosition ++ (" " ++ toString t.battery),
          inp.now⟩] ∧
      (TappieV2C3.loop t inp).oldDeviceConnected = true ∧
      (TappieV2C3.loop t inp).deviceConnected = true ∧
      (TappieV2C3.loop t inp).encoderValue = t.encoderValue ∧
      (TappieV2C3.loop t inp).currentEncPosition = t.currentEncPosition) ∧
    (∀ u : TappieV2C3.State, u.oldDeviceConnected = u.deviceConnected →
      TappieV2C3.handleConnectionChanges u = u) := by
  refine ⟨?_, TappieV2.handleConnectionChanges_of_eq, ?_, ?_,
    TappieV2C3.handleConnectionChanges_of_eq_c3⟩
  · intro s inp hc ho hg hm hcount hidle hreed
    exact (v2_connect_resync_once s inp hc ho hg hm hcount hidle hreed).1
  · intro t0
    rw [show TappieV2C3.onConnect t0 =
        TappieV2C3.resetEncoder { t0 with deviceConnected := true } from rfl,
      TappieV2C3.resetEncoder_eq_c3]
    simp [TappieV2C3.getBatteryLevel]
  · intro t inp hc ho hg hm hd hbat
    rw [TappieV2C3.loop_eq_c3, hg, hm, hd, TappieV2C3.encTick_none_c3,
      TappieV2C3.mediaTick_none_c3,
      show (decide ((0 : Int) ≠ 0)) = false from rfl,
      TappieV2C3.encoderRotaryLoop_of_still,
      TappieV2C3.handleConnectionChanges_of_connect_c3 _ (by exact hc) (by exact ho)]
    simp only [TappieV2C3.reedCheckPhase]
    split_ifs with hr <;>
      rw [TappieV2C3.batteryCheckPhase_of_early _ (by exact hbat)] <;>
      simp [TappieV2C3.State.delay, TappieV2C3.getBatteryLevel, hc]

/-- Witness for the amended C3 at concrete pending-connect states of both
variants. -/
theorem connect_resync_behavior_witness :
    (v2ConnectPending.deviceConnected = true ∧
      v2ConnectPending.oldDeviceConnected = false ∧
      Int.tdiv v2QuietInput.encoderCount 2 = v2ConnectPending.prevEncPosition ∧
      ¬ v2QuietInput.now - v2ConnectPending.lastActivityTime > 5000) ∧
    (∃ s', TappieV2.loop v2ConnectPending v2QuietInput = .next s' ∧
      s'.notifs = v2ConnectPending.notifs ++
        [⟨Chara.encPos, toString v2ConnectPending.prevEncPosition ++
          TappieV2.getBatteryLevel, v2QuietInput.now⟩] ∧
      s'.oldDeviceConnected = true ∧ s'.deviceConnected = true) ∧
    TappieV2.handleConnectionChanges v2Connected = v2Connected ∧
    ((TappieV2C3.onConnect c3Connected).notifs = c3Connected.notifs ++
      [⟨Chara.encPos, "reset" ++ (" " ++ toString c3Connected.battery),
        c3Connected.now⟩] ∧
      (TappieV2C3.onConnect c3Connected).encoderValue = 0 ∧
      (TappieV2C3.onConnect c3Connected).deviceConnected = true ∧
      (TappieV2C3.onConnect c3Connected).oldDeviceConnected =
        c3Connected.oldDeviceConnected ∧
      (TappieV2C3.onConnect c3Connected).currentEncPosition =
        c3Connected.currentEncPosition) ∧
    (c3ConnectPending.deviceConnected = true ∧
      c3ConnectPending.oldDeviceConnected = false ∧
      ¬ c3IdleInput.now - c3ConnectPending.lastBatteryCheckTime > 300000) ∧
    ((TappieV2C3.loop c3ConnectPending c3IdleInput).notifs = c3ConnectPending.notifs ++
      [⟨Chara.encPos, toString c3ConnectPending.currentEncPosition ++
        (" " ++ toString c3ConnectPending.battery), c3IdleInput.now⟩] ∧
      (TappieV2C3.loop c3ConnectPending c3IdleInput).oldDeviceConnected = true ∧
      (TappieV2C3.loop c3ConnectPending c3IdleInput).deviceConnected = true ∧
      (TappieV2C3.loop c3ConnectPending c3IdleInput).encoderValue =
        c3ConnectPending.encoderValue ∧
      (TappieV2C3.loop c3ConnectPending c3IdleInput).currentEncPosition =
        c3ConnectPending.currentEncPosition) ∧
    TappieV2C3.handleConnectionChanges c3Connected = c3Connected :=
  ⟨⟨rfl, rfl, by decide, by decide⟩,
   connect_resync_behavior.1 v2ConnectPending v2QuietInput rfl rfl rfl rfl (by decide)
     (by decide) rfl,
   connect_resync_behavior.2.1 v2Connected rfl,
   connect_resync_behavior.2.2.1 c3Connected,
   ⟨rfl, rfl, by decide⟩,
   connect_resync_behavior.2.2.2.1 c3ConnectPending c3IdleInput rfl rfl rfl rfl rfl
     (by decide),
   connect_resync_behavior.2.2.2.2 c3Connected rfl⟩

/-- A loop iteration with no user interaction, zero hardware count, zero
last-notified position, no pending connection edge and the reed reading HIGH
continues without emitting anything and keeps the position at zero. -/
theorem v2_quiet_zero_iteration (u : TappieV2.State) (inp2 : TappieV2.Input)
    (hg : inp2.encGesture = none) (hm : inp2.mediaEvents = (fun _ => none))
    (hcount : inp2.encoderCount = 0) (hprev : u.prevEncPosition = 0)
    (hconn : u.oldDeviceConnected = u.deviceConnected) (hreed : inp2.reedLevel = true) :
    ∃ u', TappieV2.loop u inp2 = .next u' ∧ u'.notifs = u.notifs ∧
      u'.currentEncPosition = 0 ∧ u'.prevEncPosition = 0 ∧ u'.encoderCount = 0 := by
  rw [TappieV2.loop_eq, hg, hm, hreed, TappieV2.encTick_none, TappieV2.mediaTick_none,
    TappieV2.encoderPhase_of_same _ _ (by rw [hcount]; exact hprev.symm),
    TappieV2.autoResetPhase_of_zero _ (by simp [hcount]),
    TappieV2.handleConnectionChanges_of_eq _ (by exact hconn),
    TappieV2.reedPhase_of_awake]
  split_ifs with hr <;>
    exact ⟨_, rfl, by simp [TappieV2.State.delay], by simp [TappieV2.State.delay, hcount],
      by simp [TappieV2.State.delay, hprev], by simp [TappieV2.State.delay, hcount]⟩

/-- C2 (amended): in the TappieV2 variant, when no user interaction occurred
for more than 5000 ms and the (unchanged) position is non-zero, the next loop
iteration resets the hardware count and both position trackers to 0 exactly
once and re-arms the activity timer; exactly one reset notification is
emitted when a client is connected and none when disconnected; and any
further quiet iteration performs no reset and emits nothing.  (The TappieV2C3
variant has no inactivity-based auto-reset at all — see the counterexample.) -/
theorem v2_idle_auto_reset_once (s : TappieV2.State) (inp : TappieV2.Input)
    (hg : inp.encGesture = none) (hm : inp.mediaEvents = (fun _ => none))
    (hcount : Int.tdiv inp.encoderCount 2 = s.prevEncPosition)
    (hpos : s.prevEncPosition ≠ 0)
    (hidle : inp.now - s.lastActivityTime > 5000)
    (hconn : s.oldDeviceConnected = s.deviceConnected)
    (hreed : inp.reedLevel = true) :
    ∃ s', TappieV2.loop s inp = .next s' ∧
      s'.currentEncPosition = 0 ∧ s'.prevEncPosition = 0 ∧ s'.encoderCount = 0 ∧
      s'.lastActivityTime = inp.now ∧
      s'.oldDeviceConnected = s.oldDeviceConnected ∧
      s'.deviceConnected = s.deviceConnected ∧
      s'.notifs = s.notifs ++
        (if s.deviceConnected = true then
          [⟨Chara.encPos, "reset" ++ TappieV2.getBatteryLevel, inp.now⟩] else []) ∧
      (∀ inp2 : TappieV2.Input, inp2.encGesture = none →
        inp2.mediaEvents = (fun _ => none) → inp2.encoderCount = 0 →
        inp2.reedLevel = true →
        ∃ s'', TappieV2.loop s' inp2 = .next s'' ∧ s''.notifs = s'.notifs ∧
          s''.currentEncPosition = 0 ∧ s''.prevEncPosition = 0 ∧ s''.encoderCount = 0) := by
  rw [TappieV2.loop_eq, hg, hm, hreed, TappieV2.encTick_none, TappieV2.mediaTick_none,
    TappieV2.encoderPhase_of_same _ _ (by exact hcount),
    TappieV2.autoResetPhase_of_idle _ (by exact hidle) (by simp [hcount]; exact hpos),
    TappieV2.resetEncoder_eq,
    TappieV2.handleConnectionChanges_of_eq _ (by exact hconn),
    TappieV2.reedPhase_of_awake]
  split_ifs with hr <;>
    refine ⟨_, rfl, by simp [TappieV2.State.delay], by simp [TappieV2.State.delay],
      by simp [TappieV2.State.delay], by simp [TappieV2.State.delay],
      by simp [TappieV2.State.delay], by simp [TappieV2.State.delay],
      by simp [TappieV2.State.delay], ?_⟩ <;>
    · intro inp2 h1 h2 h3 h4
      exact v2_quiet_zero_iteration _ inp2 h1 h2 h3 (by simp [TappieV2.State.delay])
        (by simp [TappieV2.State.delay, hconn]) h4

/-- Witness for the amended C2 at a concrete idle state. -/
theorem v2_idle_auto_reset_once_witness :
    (Int.tdiv v2IdleInput.encoderCount 2 = v2IdleDisconnected.prevEncPosition ∧
      v2IdleDisconnected.prevEncPosition ≠ 0 ∧
      v2IdleInput.now - v2IdleDisconnected.lastActivityTime > 5000 ∧
      v2IdleDisconnected.oldDeviceConnected = v2IdleDisconnected.deviceConnected) ∧
    (∃ s', TappieV2.loop v2IdleDisconnected v2IdleInput = .next s' ∧
      s'.currentEncPosition = 0 ∧ s'.prevEncPosition = 0 ∧ s'.encoderCount = 0 ∧
      s'.lastActivityTime = v2IdleInput.now ∧
      s'.oldDeviceConnected = v2IdleDisconnected.oldDeviceConnected ∧
      s'.deviceConnected = v2IdleDisconnected.deviceConnected ∧
      s'.notifs = v2IdleDisconnected.notifs ++
        (if v2IdleDisconnected.deviceConnected = true then
          [⟨Chara.encPos, "reset" ++ TappieV2.getBatteryLevel, v2IdleInput.now⟩] else []) ∧
      (∀ inp2 : TappieV2.Input, inp2.encGesture = none →
        inp2.mediaEvents = (fun _ => none) → inp2.encoderCount = 0 →
        inp2.reedLevel = true →
        ∃ s'', TappieV2.loop s' inp2 = .next s'' ∧ s''.notifs = s'.notifs ∧
          s''.currentEncPosition = 0 ∧ s''.prevEncPosition = 0 ∧ s''.encoderCount = 0)) :=
  ⟨⟨by decide, by decide, by decide, by decide⟩,
   v2_idle_auto_reset_once v2IdleDisconnected v2IdleInput rfl rfl (by decide) (by decide)
     (by decide) (by decide) rfl⟩

/-- No auto-reset when its guard fails. -/
theorem v2_autoResetPhase_of_not (s : TappieV2.State)
    (h : ¬(s.now - s.lastActivityTime > 5000 ∧ s.currentEncPosition ≠ 0)) :
    TappieV2.autoResetPhase s = s := by
  simp only [TappieV2.autoResetPhase, if_neg h]

/-- Through the connection handler, a continuing reed phase and nothing else,
the position trackers are preserved. -/
theorem v2_reed_next_pos (X : TappieV2.State) (lvl : Bool) (u2 : TappieV2.State)
    (hres : TappieV2.reedPhase (TappieV2.handleConnectionChanges X) lvl = .next u2) :
    u2.prevEncPosition = X.prevEncPosition ∧
      u2.currentEncPosition = X.currentEncPosition := by
  obtain ⟨-, -, hp, hc, -, -, -, -⟩ := TappieV2.reedPhase_next_frame _ lvl u2 hres
  exact ⟨hp.trans (TappieV2.handleConnectionChanges_pos X).1,
    hc.trans (TappieV2.handleConnectionChanges_pos X).2⟩

/-- C8 (amended): across any continuing TappieV2 loop iteration, the
last-notified position `prevEncPosition` either stays unchanged, or is set to
the freshly read position at the position-change dispatch — which requires
that position to differ from it — or is set to 0 together with the current
position by the encoder reset.  (The reset case can rewrite `prevEncPosition`
while it equals the current position — see the counterexample — which is what
the original claim ruled out.) -/
theorem prev_position_update_cases (s : TappieV2.State) (inp : TappieV2.Input)
    (s' : TappieV2.State) (h : TappieV2.loop s inp = .next s') :
    s'.prevEncPosition = s.prevEncPosition ∨
    (s'.prevEncPosition = Int.tdiv inp.encoderCount 2 ∧
      Int.tdiv inp.encoderCount 2 ≠ s.prevEncPosition) ∨
    (s'.prevEncPosition = 0 ∧ s'.currentEncPosition = 0) := by
  rw [TappieV2.loop_eq] at h
  set u := TappieV2.mediaTick (TappieV2.encTick { s with now := inp.now } inp.encGesture)
    inp.mediaEvents with hudef
  have hu : u.prevEncPosition = s.prevEncPosition := by
    rw [hudef]
    exact (TappieV2.mediaTick_pos _ _).1.trans (TappieV2.encTick_pos _ _).1
  by_cases hd : Int.tdiv inp.encoderCount 2 = u.prevEncPosition
  · rw [TappieV2.encoderPhase_of_same u _ hd] at h
    by_cases har : u.now - u.lastActivityTime > 5000 ∧ Int.tdiv inp.encoderCount 2 ≠ 0
    · rw [TappieV2.autoResetPhase_of_idle _ (by exact har.1) (by exact har.2),
        TappieV2.resetEncoder_eq] at h
      cases hres : TappieV2.reedPhase (TappieV2.handleConnectionChanges _) inp.reedLevel with
      | halted r => rw [hres] at h; simp at h
      | next u2 =>
          rw [hres] at h
          injection h with h
          subst h
          obtain ⟨hp, hc⟩ := v2_reed_next_pos _ _ _ hres
          refine Or.inr (Or.inr ⟨?_, ?_⟩)
          · rw [TappieV2.State.delay] at *; rw [hp]
          · rw [TappieV2.State.delay] at *; rw [hc]
    · rw [v2_autoResetPhase_of_not _ (by exact har)] at h
      cases hres : TappieV2.reedPhase (TappieV2.handleConnectionChanges _) inp.reedLevel with
      | halted r => rw [hres] at h; simp at h
      | next u2 =>
          rw [hres] at h
          injection h with h
          subst h
          obtain ⟨hp, hc⟩ := v2_reed_next_pos _ _ _ hres
          exact Or.inl (by rw [TappieV2.State.delay] at *; rw [hp]; exact hu)
  · rw [TappieV2.encoderPhase_of_diff u _ hd] at h
    rw [TappieV2.autoResetPhase_of_recent _ (by simp)] at h
    cases hres : TappieV2.reedPhase (TappieV2.handleConnectionChanges _) inp.reedLevel with
    | halted r => rw [hres] at h; simp at h
    | next u2 =>
        rw [hres] at h
        injection h with h
        subst h
        obtain ⟨hp, hc⟩ := v2_reed_next_pos _ _ _ hres
        refine Or.inr (Or.inl ⟨?_, ?_⟩)
        · rw [TappieV2.State.delay] at *; rw [hp]
        · rw [hu] at hd; exact hd

/-- Witness for the amended C8 at a concrete quiet iteration. -/
theorem prev_position_update_cases_witness :
    TappieV2.loop v2Connected v2QuietInput = .next v2AfterQuiet ∧
    (v2AfterQuiet.prevEncPosition = v2Connected.prevEncPosition ∨
      (v2AfterQuiet.prevEncPosition = Int.tdiv v2QuietInput.encoderCount 2 ∧
        Int.tdiv v2QuietInput.encoderCount 2 ≠ v2Connected.prevEncPosition) ∨
      (v2AfterQuiet.prevEncPosition = 0 ∧ v2AfterQuiet.currentEncPosition = 0)) :=
  ⟨by decide,
   prev_position_update_cases v2Connected v2QuietInput v2AfterQuiet (by decide)⟩
